import Mathlib

/-!
Verification of the guest-kernel core of the Quark repository.

This file gives a shallow embedding of the signal state machine
(src/qkernel/src/threadmgr/task_signals.rs), the host-FD notifier
(src/qkernel/src/guestfdnotifier.rs), the pipe ReaderWriter ioctl
(src/qkernel/src/kernel/pipe/reader_writer.rs) and the File::Readv offset
logic (src/qkernel/src/fs/file.rs), and proves the testable properties of
the specification against it.

Machine integers (u64 signal sets, i32 signal numbers) are embedded as
Nat respectively Int; a 64-bit bitwise complement is written as xor with
2 ^ 64 - 1.
-/

/- SignalAction constants, from task_signals.rs (impl SignalAction). -/
namespace SignalAction

def TERM : Nat := 0

def CORE : Nat := 1

def STOP : Nat := 2

def IGNORE : Nat := 3

def HANDLER : Nat := 4

end SignalAction

/- Signal number constants used by task_signals.rs. The numeric values come
from the standard Linux numbering used throughout the repository
(SIGKILL 9, SIGSTOP 19, SIGCONT 18, SIGTSTP 20, SIGTTIN 21, SIGTTOU 22);
the defining file qlib/linux_def.rs is outside the provided sources. -/
namespace Signal

def SIGKILL : Int := 9

def SIGCONT : Int := 18

def SIGSTOP : Int := 19

def SIGTSTP : Int := 20

def SIGTTIN : Int := 21

def SIGTTOU : Int := 22

end Signal

/-- Modelled from the spec: Signal::IsValid from qlib/linux_def.rs (not under
src/); a signal number is valid when it lies in 1..64 (64 signals, the
standard-signal range 1..31 plus the real-time range 32..64). -/
def Signal.IsValid (sig : Int) : Prop := 1 ≤ sig ∧ sig ≤ 64

instance (sig : Int) : Decidable (Signal.IsValid sig) := by
  unfold Signal.IsValid; infer_instance

/-- Modelled from the spec: Signal::IsRealtime from qlib/linux_def.rs (not
under src/); the spec calls signals at and above 32 real-time. -/
def Signal.IsRealtime (sig : Int) : Prop := 32 ≤ sig

instance (sig : Int) : Decidable (Signal.IsRealtime sig) := by
  unfold Signal.IsRealtime; infer_instance

/-- SigAct, projected to the fields the embedded code reads: the handler
value and the handler-entry mask (task_signals.rs reads act.handler and
act.mask). -/
structure SigAct where
  handler : Nat
  mask : Nat
  deriving DecidableEq

/-- Handler value meaning SIG_DFL; task_signals.rs documents the value 0
over ComputeAction (lines 102-103). -/
def SigAct.SIGNAL_ACT_DEFAULT : Nat := 0

/-- Handler value meaning SIG_IGN; task_signals.rs documents the value 1
over ComputeAction (line 104). -/
def SigAct.SIGNAL_ACT_IGNORE : Nat := 1

/-- DEFAULT_ACTION table from task_signals.rs lines 46-79, index = signal
number for signals 0..31. -/
def DEFAULT_ACTION : List Nat := [
  SignalAction.IGNORE,
  SignalAction.TERM,
  SignalAction.TERM,
  SignalAction.CORE,
  SignalAction.CORE,
  SignalAction.CORE,
  SignalAction.CORE,
  SignalAction.CORE,
  SignalAction.CORE,
  SignalAction.TERM,
  SignalAction.TERM,
  SignalAction.CORE,
  SignalAction.TERM,
  SignalAction.TERM,
  SignalAction.TERM,
  SignalAction.TERM,
  SignalAction.TERM,
  SignalAction.IGNORE,
  SignalAction.IGNORE,
  SignalAction.STOP,
  SignalAction.STOP,
  SignalAction.STOP,
  SignalAction.STOP,
  SignalAction.IGNORE,
  SignalAction.CORE,
  SignalAction.CORE,
  SignalAction.TERM,
  SignalAction.TERM,
  SignalAction.IGNORE,
  SignalAction.TERM,
  SignalAction.CORE,
  SignalAction.CORE]

/-- ComputeAction from task_signals.rs lines 106-125. The result is an
Option: none models the Rust panic on an out-of-range table index
(DEFAULT_ACTION[sig as usize] for a negative signal number). -/
def ComputeAction (sig : Int) (act : SigAct) : Option Nat :=
  if sig = Signal.SIGSTOP then some SignalAction.STOP
  else if sig = Signal.SIGKILL then some SignalAction.TERM
  else if sig = 0 then some SignalAction.IGNORE
  else if act.handler = SigAct.SIGNAL_ACT_DEFAULT then
    if 32 ≤ sig then some SignalAction.HANDLER
    else if sig < 0 then none
    else DEFAULT_ACTION.get? sig.toNat
  else if act.handler = SigAct.SIGNAL_ACT_IGNORE then some SignalAction.IGNORE
  else some SignalAction.HANDLER

/-- Default-action table as the claim lists it for signals 1..31: entry i of
this list is the claimed action of signal i+1. Stated from the claim text
for comparison with the source table DEFAULT_ACTION. -/
def claimDefaultTable : List Nat := [
  SignalAction.TERM, SignalAction.TERM, SignalAction.CORE, SignalAction.CORE,
  SignalAction.CORE, SignalAction.CORE, SignalAction.CORE, SignalAction.CORE,
  SignalAction.TERM, SignalAction.TERM, SignalAction.CORE, SignalAction.TERM,
  SignalAction.TERM, SignalAction.TERM, SignalAction.TERM, SignalAction.TERM,
  SignalAction.IGNORE, SignalAction.IGNORE, SignalAction.STOP, SignalAction.STOP,
  SignalAction.STOP, SignalAction.STOP, SignalAction.IGNORE, SignalAction.CORE,
  SignalAction.CORE, SignalAction.TERM, SignalAction.TERM, SignalAction.IGNORE,
  SignalAction.TERM, SignalAction.CORE, SignalAction.CORE]

/-- C1: ComputeAction returns STOP for SIGSTOP and TERM for SIGKILL and
IGNORE for signal 0 whatever the action is; for any other signal it follows
the handler value: the default value selects the default-action table entry
for signals 1..31 (as listed in the claim) and HANDLER for every signal
number at least 32, the ignore value selects IGNORE, and any other handler
value selects HANDLER. -/
theorem C1_ComputeAction_spec (sig : Int) (act : SigAct) :
    (ComputeAction Signal.SIGSTOP act = some SignalAction.STOP) ∧
    (ComputeAction Signal.SIGKILL act = some SignalAction.TERM) ∧
    (ComputeAction 0 act = some SignalAction.IGNORE) ∧
    (sig ≠ 0 → sig ≠ Signal.SIGKILL → sig ≠ Signal.SIGSTOP →
      ((act.handler = SigAct.SIGNAL_ACT_DEFAULT →
        (1 ≤ sig → sig ≤ 31 →
          ComputeAction sig act = some (claimDefaultTable.getD (sig - 1).toNat 0)) ∧
        (32 ≤ sig → ComputeAction sig act = some SignalAction.HANDLER)) ∧
      (act.handler = SigAct.SIGNAL_ACT_IGNORE →
        ComputeAction sig act = some SignalAction.IGNORE) ∧
      (act.handler ≠ SigAct.SIGNAL_ACT_DEFAULT → act.handler ≠ SigAct.SIGNAL_ACT_IGNORE →
        ComputeAction sig act = some SignalAction.HANDLER))) := by
  refine ⟨by simp [ComputeAction, Signal.SIGSTOP], ?_, ?_, ?_⟩
  · simp [ComputeAction, Signal.SIGSTOP, Signal.SIGKILL]
  · simp [ComputeAction, Signal.SIGSTOP, Signal.SIGKILL]
  · intro h0 hk hs
    refine ⟨fun hd => ⟨fun h1 h31 => ?_, fun h32 => ?_⟩, fun hi => ?_, fun hd hi => ?_⟩
    · unfold ComputeAction
      rw [if_neg hs, if_neg hk, if_neg h0, if_pos hd, if_neg (by omega),
        if_neg (by omega)]
      interval_cases sig <;> first
        | exact absurd rfl hk
        | exact absurd rfl hs
        | rfl
    · unfold ComputeAction
      rw [if_neg hs, if_neg hk, if_neg h0, if_pos hd, if_pos h32]
    · unfold ComputeAction
      have hd : act.handler ≠ SigAct.SIGNAL_ACT_DEFAULT := by
        rw [hi]; decide
      rw [if_neg hs, if_neg hk, if_neg h0, if_neg hd, if_pos hi]
    · unfold ComputeAction
      rw [if_neg hs, if_neg hk, if_neg h0, if_neg hd, if_neg hi]

/-- Witness for C1 at concrete inputs: signal 11 with the default handler
takes the table action CORE, and the hypotheses of the quantified parts hold
at signal 11. -/
theorem C1_ComputeAction_spec_witness :
    (11 : Int) ≠ 0 ∧ (11 : Int) ≠ Signal.SIGKILL ∧ (11 : Int) ≠ Signal.SIGSTOP ∧
    SigAct.mk 0 0 = SigAct.mk SigAct.SIGNAL_ACT_DEFAULT 0 ∧
    ComputeAction 11 (SigAct.mk 0 0) = some (claimDefaultTable.getD ((11 : Int) - 1).toNat 0) := by
  refine ⟨by decide, by decide, by decide, by decide, ?_⟩
  exact (((C1_ComputeAction_spec 11 (SigAct.mk 0 0)).2.2.2 (by decide) (by decide)
    (by decide)).1 (by decide)).1 (by decide) (by decide)

/- Bitwise helpers: signal sets are u64 bitmasks in the source; bit sig-1
stands for signal sig (SignalSet::New(sig) is 1 << (sig-1), see the
UNBLOCKED_SIGNALS initializer in task_signals.rs lines 82-84). -/

/-- ALL64 is the all-ones 64-bit word. -/
def ALL64 : Nat := 2 ^ 64 - 1

/-- compl64 is the 64-bit bitwise complement (the Rust `!` on u64). -/
def compl64 (x : Nat) : Nat := x ^^^ ALL64

/-- sigBit models SignalSet::New(sig).0 = 1 << (sig - 1); callers only use it
for signal numbers at least 1. -/
def sigBit (sig : Int) : Nat := 2 ^ (sig - 1).toNat

/-- UNBLOCKED_SIGNALS from task_signals.rs lines 82-84:
(1 << SIGKILL | 1 << SIGSTOP) >> 1 with SIGKILL 9 and SIGSTOP 19. -/
def UNBLOCKED_SIGNALS : Nat := ((1 <<< 9) ||| (1 <<< 19)) >>> 1

/-- STOP_SIGNALS from task_signals.rs lines 87-92:
(1 << SIGSTOP | 1 << SIGTSTP | 1 << SIGTTIN | 1 << SIGTTOU) >> 1. -/
def STOP_SIGNALS : Nat := ((1 <<< 19) ||| (1 <<< 20) ||| (1 <<< 21) ||| (1 <<< 22)) >>> 1

/-- Modelled from the spec: UNMASKABLE_MASK (SignalDef.rs, not under src/) is
the set silently stripped from every requested mask; the spec mask
discipline says the stripped set is UNBLOCKED_SIGNALS = SIGKILL and SIGSTOP,
that is bits 8 and 18. -/
def UNMASKABLE_MASK : Nat := (1 <<< 8) ||| (1 <<< 18)

/-- SignalInfo, projected to the Signo field; the remaining fields of the
source SignalInfo (Code, payload union) are never read by the embedded
logic. -/
structure SignalInfo where
  Signo : Int
  deriving DecidableEq

/-- Modelled from the spec: the per-thread / per-group pending signal queue
(threadmgr/pending_signals.rs is not under src/) is kept as the list of
queued infos in arrival order. pendingSet derives the pending-set bitmask
the source stores alongside the queue. -/
def pendingSet (q : List SignalInfo) : Nat :=
  q.foldr (fun si acc => sigBit si.Signo ||| acc) 0

/-- Modelled from the spec: PendingSignals::Enque. A standard signal
(number at most 31) is not queued when one instance is already pending
("not queued (standard signal already pending)"); a real-time signal is not
queued when its queue is full (the SendSignal doc comment: "the signal is
realtime, and cannot be queued"; capacity not given by the spec, taken as
the Linux limit 128); otherwise the info is appended. Returns the new queue
and whether the signal was queued. -/
def enque (q : List SignalInfo) (si : SignalInfo) : List SignalInfo × Bool :=
  if si.Signo ≤ 31 ∧ q.any (fun x => x.Signo = si.Signo) then (q, false)
  else if 32 ≤ si.Signo ∧ 128 ≤ (q.filter (fun x => x.Signo = si.Signo)).length then (q, false)
  else (q ++ [si], true)

/-- Modelled from the spec: PendingSignals::Deque(mask) "returns a pending
signal that is *not* included in mask" (doc comment of dequeueSignalLocked
in task_signals.rs); the first queued unmasked info is removed and
returned. -/
def deque (q : List SignalInfo) (mask : Nat) : Option SignalInfo × List SignalInfo :=
  match q with
  | [] => (none, [])
  | si :: rest =>
    if Nat.testBit mask (si.Signo - 1).toNat then
      let r := deque rest mask
      (r.1, si :: r.2)
    else (some si, rest)

/-- Modelled from the spec: PendingSignals::Discard(sig) removes every
queued instance of the signal. -/
def discardQueue (q : List SignalInfo) (sig : Int) : List SignalInfo :=
  q.filter (fun x => x.Signo ≠ sig)

/-- TaskExitState from threadmgr/task_exit.rs (not under src/); the states
named by task_signals.rs, in their exit order (the code compares with
"exitState >= TaskExitInitiated" and with TaskExitDead). -/
inductive TaskExitState where
  | TaskExitNone
  | TaskExitInitiated
  | TaskExitZombie
  | TaskExitDead
  deriving DecidableEq

/-- TaskStopType from threadmgr/task_stop.rs (not under src/):
endGroupStopLocked only distinguishes the GROUPSTOP stop type from any
other; OTHERSTOP stands for every other variant. -/
inductive TaskStopType where
  | GROUPSTOP
  | OTHERSTOP
  deriving DecidableEq

/-- Thread state, projected to the fields task_signals.rs reads or writes:
exit state, the two signal masks, the pending queue, the current stop, the
pending-interrupt flag of the blocker, the killed bit, and the group-stop
participation bits. -/
structure ThreadState where
  exitState : TaskExitState
  signalMask : Nat
  realSignalMask : Nat
  pendingSignals : List SignalInfo
  stop : Option TaskStopType
  interrupted : Bool
  killed : Bool
  groupStopPending : Bool
  groupStopAcknowledged : Bool
  deriving DecidableEq

/-- Thread state with every field zeroed; stands for the unreachable
List.getD default (task references in the source are never dangling). -/
def defaultThread : ThreadState :=
  ⟨TaskExitState.TaskExitNone, 0, 0, [], none, false, false, false, false⟩

/-- Thread-group state, projected to the fields task_signals.rs reads or
writes. actions is the signalHandlers action map as an association list
(signal number to action); exitStatusSigno is the Signo field of the exit
status. tasks holds every thread of the group, the signal-sending thread
included, addressed by list index. -/
structure ThreadGroupState where
  pendingSignals : List SignalInfo
  actions : List (Int × SigAct)
  groupStopDequeued : Bool
  groupStopSignal : Int
  groupStopPendingCount : Int
  groupStopComplete : Bool
  groupStopWaitable : Bool
  groupContNotify : Bool
  groupContInterrupted : Bool
  groupContWaitable : Bool
  exiting : Bool
  exitStatusSigno : Int
  tasks : List ThreadState
  deriving DecidableEq

/-- Modelled from the spec: SignalHandlers::GetAct looks the signal up in
the action map and falls back to the all-default action. -/
def GetAct (tg : ThreadGroupState) (sig : Int) : SigAct :=
  match tg.actions.find? (fun p => p.1 = sig) with
  | some p => p.2
  | none => SigAct.mk SigAct.SIGNAL_ACT_DEFAULT 0

/-- updateTask applies f to task i of the group (identity when i is out of
range, which never happens in the source). -/
def updateTask (tg : ThreadGroupState) (i : Nat) (f : ThreadState → ThreadState) :
    ThreadGroupState :=
  { tg with tasks := tg.tasks.set i (f (tg.tasks.getD i defaultThread)) }

/-- canReceiveSignalLocked from task_signals.rs lines 179-203: false when
the thread blocks the signal, is stopped, or already has a pending
interrupt (the SignalQueue notification only wakes external waiters and is
not part of the thread-group state). -/
def canReceiveSignalLocked (t : ThreadState) (sig : Int) : Prop :=
  sigBit sig &&& t.signalMask = 0 ∧ t.stop = none ∧ t.interrupted = false

instance (t : ThreadState) (sig : Int) : Decidable (canReceiveSignalLocked t sig) := by
  unfold canReceiveSignalLocked; infer_instance

/-- findSignalReceiverLocked from task_signals.rs lines 677-685: index of
the first task of the group that can receive the signal. -/
def findSignalReceiverLocked (tg : ThreadGroupState) (sig : Int) : Option Nat :=
  (List.range tg.tasks.length).find?
    (fun j => decide (canReceiveSignalLocked (tg.tasks.getD j defaultThread) sig))

/-- forEachSignal models SignalSet::ForEachSignal: f is applied for every
signal number (1..64) whose bit is in the set, in ascending order. -/
def forEachSignal (set : Nat) (f : α → Int → α) (init : α) : α :=
  (List.range 64).foldl
    (fun a i => if Nat.testBit set i then f a (Int.ofNat (i + 1)) else a) init

/-- setSignalMaskLocked from task_signals.rs lines 237-273 for thread tid:
strips UNMASKABLE_MASK from the requested mask, stores it, and re-routes or
re-issues interrupts for newly blocked group-pending and newly unblocked
pending signals. -/
def setSignalMaskLocked (tg : ThreadGroupState) (tid : Nat) (mask : Nat) :
    ThreadGroupState :=
  let m := mask &&& compl64 UNMASKABLE_MASK
  let oldMask := (tg.tasks.getD tid defaultThread).signalMask
  let tg1 := updateTask tg tid (fun t => { t with signalMask := m })
  let blocked := m &&& compl64 oldMask
  let blockedGroupPending := blocked &&& pendingSet tg1.pendingSignals
  let tg2 :=
    if blockedGroupPending ≠ 0 ∧ (tg1.tasks.getD tid defaultThread).interrupted then
      let tg1a := updateTask tg1 tid (fun t => { t with interrupted := false })
      let tg1b := forEachSignal blockedGroupPending
        (fun g sig =>
          match findSignalReceiverLocked g sig with
          | some j => updateTask g j (fun t => { t with interrupted := true })
          | none => g) tg1a
      updateTask tg1b tid (fun t => { t with interrupted := true })
    else tg1
  let unblocked := oldMask &&& compl64 m
  let selfPending := pendingSet (tg2.tasks.getD tid defaultThread).pendingSignals
  let unblockedPending := unblocked &&& (selfPending ||| pendingSet tg2.pendingSignals)
  if unblockedPending ≠ 0 then
    updateTask tg2 tid (fun t => { t with interrupted := true })
  else tg2

/-- discardSpecificLocked from task_signals.rs lines 626-631: remove every
instance of the signal from the group queue and from every task queue. -/
def discardSpecificLocked (tg : ThreadGroupState) (sig : Int) : ThreadGroupState :=
  { tg with
    pendingSignals := discardQueue tg.pendingSignals sig,
    tasks := tg.tasks.map (fun t => { t with pendingSignals := discardQueue t.pendingSignals sig }) }

/-- endInternalStopLocked (threadmgr, not under src/): clears the current
task stop. -/
def endInternalStopLocked (t : ThreadState) : ThreadState := { t with stop := none }

/-- killLocked (threadmgr/task_exit.rs, not under src/): marks the task
killed; per the canReceiveSignalLocked comment in task_signals.rs
("SIGKILL already interrupted all tasks in the task group via
applySignalSideEffects => killLocked") it also interrupts the task. -/
def killLocked (t : ThreadState) : ThreadState := { t with killed := true, interrupted := true }

/-- endGroupStopLocked from task_signals.rs lines 692-737: discards every
queued stop signal, returns early when no group stop is pending or
complete, otherwise wakes the group-stopped tasks, schedules the continue
notification when broadcast is set, and resets the group-stop bookkeeping
(groupStopDequeued included). -/
def endGroupStopLocked (tg : ThreadGroupState) (broadcast : Bool) : ThreadGroupState :=
  let tg1 := forEachSignal STOP_SIGNALS (fun g sig => discardSpecificLocked g sig) tg
  if tg1.groupStopPendingCount = 0 ∧ tg1.groupStopComplete = false then tg1
  else
    let tasks2 := tg1.tasks.map (fun t =>
      let t1 := { t with groupStopPending := true }
      if t1.stop = some TaskStopType.GROUPSTOP then endInternalStopLocked t1 else t1)
    let tg2 := { tg1 with tasks := tasks2 }
    let tg3 :=
      if broadcast then
        { tg2 with
          groupContNotify := true,
          groupContInterrupted := !tg2.groupStopComplete,
          groupContWaitable := true }
      else tg2
    { tg3 with
      groupStopDequeued := false,
      groupStopSignal := 0,
      groupStopPendingCount := 0,
      groupStopComplete := false,
      groupStopWaitable := false }

/-- applySignalSideEffectsLocked from task_signals.rs lines 633-668: a
stop-set signal discards pending SIGCONT, SIGCONT ends the group stop,
SIGKILL marks the group exiting with exit status SIGKILL and kills every
task; any other signal has no side effect. -/
def applySignalSideEffectsLocked (tg : ThreadGroupState) (sig : Int) : ThreadGroupState :=
  if sigBit sig &&& STOP_SIGNALS ≠ 0 then
    discardSpecificLocked tg Signal.SIGCONT
  else if sig = Signal.SIGCONT then
    endGroupStopLocked tg true
  else if sig = Signal.SIGKILL then
    let tg1 :=
      if tg.exiting = false then
        { tg with exiting := true, exitStatusSigno := Signal.SIGKILL }
      else tg
    { tg1 with tasks := tg1.tasks.map killLocked }
  else tg

/-- Error type, projected to the SysError variant of qlib/common.rs that the
embedded code produces. -/
inductive Error where
  | SysError (n : Int)
  deriving DecidableEq

/- Errno values used by the embedded code; standard Linux numbers (the
defining qlib/linux_def.rs is not under src/). -/
namespace SysErr

def ESRCH : Int := 3

def EAGAIN : Int := 11

def EINVAL : Int := 22

def ENOTTY : Int := 25

def ETIMEDOUT : Int := 110

end SysErr

deriving instance DecidableEq for Except

/-- Outcome of sendSignalTimerLocked: the returned Result, the thread-group
state after the call, whether signalRejectedLocked was called on the
attached timer, and the index of the thread interrupted to receive the
signal, if any. -/
structure SendOutcome where
  result : Except Error Unit
  tg : ThreadGroupState
  timerRejected : Bool
  notified : Option Nat
  deriving DecidableEq

/-- sendSignalNotify is the receiver-selection tail of
sendSignalTimerLocked (task_signals.rs lines 459-479) after a successful
enqueue: interrupt the target thread if it can receive the signal, else for
group signals interrupt the first eligible group member. -/
def sendSignalNotify (tg2 : ThreadGroupState) (tid : Nat) (sig : Int) (group : Bool) :
    SendOutcome :=
  if canReceiveSignalLocked (tg2.tasks.getD tid defaultThread) sig then
    ⟨Except.ok (), updateTask tg2 tid (fun t => { t with interrupted := true }), false,
      some tid⟩
  else if group then
    match findSignalReceiverLocked tg2 sig with
    | some j =>
      ⟨Except.ok (), updateTask tg2 j (fun t => { t with interrupted := true }), false,
        some j⟩
    | none => ⟨Except.ok (), tg2, false, none⟩
  else ⟨Except.ok (), tg2, false, none⟩

/-- sendSignalTimerLocked from task_signals.rs lines 392-480 for sending
thread tid of the group (timer is whether an interval timer is attached):
dead target, signal 0 and invalid signals return first; side effects apply
next; an unmasked ignored signal is discarded (rejecting the timer); the
info is enqueued on the thread or group queue; a not-queued real-time
signal is EAGAIN, a not-queued standard signal rejects the timer and
succeeds; otherwise the target thread or a group receiver is
interrupted. -/
def sendSignalTimerLocked (tg : ThreadGroupState) (tid : Nat) (info : SignalInfo)
    (group : Bool) (timer : Bool) : SendOutcome :=
  let self := tg.tasks.getD tid defaultThread
  if self.exitState = TaskExitState.TaskExitDead then
    ⟨Except.error (Error.SysError SysErr.ESRCH), tg, false, none⟩
  else if info.Signo = 0 then
    ⟨Except.ok (), tg, false, none⟩
  else if ¬ Signal.IsValid info.Signo then
    ⟨Except.error (Error.SysError SysErr.EINVAL), tg, false, none⟩
  else
    let sig := info.Signo
    let tg1 := applySignalSideEffectsLocked tg sig
    let ignored := ComputeAction sig (GetAct tg1 sig) = some SignalAction.IGNORE
    let self1 := tg1.tasks.getD tid defaultThread
    let sigset := sigBit sig
    if sigset &&& self1.signalMask = 0 ∧ sigset &&& self1.realSignalMask = 0 ∧ ignored then
      ⟨Except.ok (), tg1, timer, none⟩
    else
      let eq := if group then enque tg1.pendingSignals info else enque self1.pendingSignals info
      let tg2 :=
        if group then { tg1 with pendingSignals := eq.1 }
        else updateTask tg1 tid (fun t => { t with pendingSignals := eq.1 })
      if eq.2 = false then
        if Signal.IsRealtime sig then
          ⟨Except.error (Error.SysError SysErr.EAGAIN), tg2, false, none⟩
        else
          ⟨Except.ok (), tg2, timer, none⟩
      else
        sendSignalNotify tg2 tid sig group

/-- PendingSignals from task_signals.rs lines 484-495 for thread tid: the
union of the thread pending set and the group pending set. -/
def PendingSignals (tg : ThreadGroupState) (tid : Nat) : Nat :=
  pendingSet (tg.tasks.getD tid defaultThread).pendingSignals ||| pendingSet tg.pendingSignals

/-- dequeueSignalLocked from task_signals.rs lines 132-140 for thread tid:
dequeue from the thread queue first, then from the group queue. -/
def dequeueSignalLocked (tg : ThreadGroupState) (tid : Nat) (mask : Nat) :
    Option SignalInfo × ThreadGroupState :=
  match deque (tg.tasks.getD tid defaultThread).pendingSignals mask with
  | (some si, q1) =>
    (some si, updateTask tg tid (fun t => { t with pendingSignals := q1 }))
  | (none, _) =>
    match deque tg.pendingSignals mask with
    | (some si, q1) => (some si, { tg with pendingSignals := q1 })
    | (none, _) => (none, tg)

/-- sigtimedwaitWakeState is the state of the thread group when the blocked
Sigtimedwait call wakes and has restored its mask (task_signals.rs lines
554-570): realSignalMask saves the live mask, the active mask is narrowed
to the waited-on signals, the thread blocks (wakeSelf and wakeGroup are the
thread and group queues as other threads have left them at wake time), and
on wake the saved mask is restored through setSignalMaskLocked and
realSignalMask is cleared. -/
def sigtimedwaitWakeState (tg : ThreadGroupState) (tid : Nat) (mask : Nat)
    (wakeSelf wakeGroup : List SignalInfo) : ThreadGroupState :=
  let sm := (tg.tasks.getD tid defaultThread).signalMask
  let tgA := updateTask tg tid (fun t => { t with realSignalMask := sm })
  let tgB := setSignalMaskLocked tgA tid (sm &&& mask)
  let tgC := { updateTask tgB tid (fun t => { t with pendingSignals := wakeSelf }) with
    pendingSignals := wakeGroup }
  let rsm := (tgC.tasks.getD tid defaultThread).realSignalMask
  let tgD := setSignalMaskLocked tgC tid rsm
  updateTask tgD tid (fun t => { t with realSignalMask := 0 })

/-- sigtimedwaitFinish is the second critical section of Sigtimedwait
(task_signals.rs lines 565-584) after the mask has been restored: retry the
dequeue, then translate the wake error (ETIMEDOUT becomes EAGAIN). -/
def sigtimedwaitFinish (tg : ThreadGroupState) (tid : Nat) (mask : Nat) (wakeErr : Int) :
    Except Error SignalInfo × ThreadGroupState :=
  match dequeueSignalLocked tg tid mask with
  | (some si, tgF) => (Except.ok si, tgF)
  | (none, tgF) =>
    if wakeErr = SysErr.ETIMEDOUT then
      (Except.error (Error.SysError SysErr.EAGAIN), tgF)
    else (Except.error (Error.SysError wakeErr), tgF)

/-- Sigtimedwait from task_signals.rs lines 534-585 for thread tid. The
temporary mask is the complement of set AND NOT UNBLOCKED_SIGNALS; on the
immediate path a dequeued info or EAGAIN (zero timeout) is returned;
otherwise the call blocks (wakeSelf, wakeGroup and wakeErr describe the
queues and the blocker errno at wake time, 110 = ETIMEDOUT on timeout) and
finishes with the mask restored. -/
def Sigtimedwait (tg : ThreadGroupState) (tid : Nat) (set : Nat) (timeout : Int)
    (wakeSelf wakeGroup : List SignalInfo) (wakeErr : Int) :
    Except Error SignalInfo × ThreadGroupState :=
  let mask := compl64 (set &&& compl64 UNBLOCKED_SIGNALS)
  match dequeueSignalLocked tg tid mask with
  | (some si, tg1) => (Except.ok si, tg1)
  | (none, _) =>
    if timeout = 0 then (Except.error (Error.SysError SysErr.EAGAIN), tg)
    else
      sigtimedwaitFinish (sigtimedwaitWakeState tg tid mask wakeSelf wakeGroup) tid mask
        wakeErr

/-- Mask-update step of deliverSignalToHandler (task_signals.rs lines
1047-1052): the new mask is the current mask plus the handler mask plus,
unless SA_NODEFER, the delivered signal; stored through SetSignalMask. -/
def handlerEntryMaskUpdate (tg : ThreadGroupState) (tid : Nat) (act : SigAct)
    (noDefer : Bool) (sig : Int) : ThreadGroupState :=
  let self := tg.tasks.getD tid defaultThread
  let newMask := (self.signalMask ||| act.mask) ||| (if noDefer then 0 else sigBit sig)
  setSignalMaskLocked tg tid newMask

/-- Mask-restore step of SignalReturn (task_signals.rs lines 1113-1122):
the popped oldmask is stripped of UNBLOCKED_SIGNALS and stored through
SetSignalMask; a self-interrupt is re-armed when an unmasked signal is
still pending (Thread::HasSignal, not under src/, modelled as an unmasked
pending signal existing). -/
def signalReturnMaskRestore (tg : ThreadGroupState) (tid : Nat) (oldmask : Nat) :
    ThreadGroupState :=
  let tg1 := setSignalMaskLocked tg tid (oldmask &&& compl64 UNBLOCKED_SIGNALS)
  let self := tg1.tasks.getD tid defaultThread
  if (pendingSet self.pendingSignals ||| pendingSet tg1.pendingSignals)
      &&& compl64 self.signalMask ≠ 0 then
    updateTask tg1 tid (fun t => { t with interrupted := true })
  else tg1

/-- Mask-setting operations of the signal machinery, one constructor per
source operation that stores a thread signal mask: SetSignalMask and
setSignalMaskLocked, the handler-entry update of deliverSignalToHandler,
the restore of SignalReturn, and a whole Sigtimedwait call (which narrows
the mask temporarily and restores it). -/
inductive MaskOp where
  | setMask (tid : Nat) (mask : Nat)
  | handlerEntry (tid : Nat) (act : SigAct) (noDefer : Bool) (sig : Int)
  | sigreturn (tid : Nat) (oldmask : Nat)
  | sigwait (tid : Nat) (set : Nat) (timeout : Int)
      (wakeSelf wakeGroup : List SignalInfo) (wakeErr : Int)

/-- applyMaskOp runs one mask-setting operation on the thread group. -/
def applyMaskOp (tg : ThreadGroupState) (op : MaskOp) : ThreadGroupState :=
  match op with
  | MaskOp.setMask tid mask => setSignalMaskLocked tg tid mask
  | MaskOp.handlerEntry tid act noDefer sig => handlerEntryMaskUpdate tg tid act noDefer sig
  | MaskOp.sigreturn tid oldmask => signalReturnMaskRestore tg tid oldmask
  | MaskOp.sigwait tid set timeout ws wg we => (Sigtimedwait tg tid set timeout ws wg we).2

/-- GuestFdInfo from guestfdnotifier.rs lines 54-59, projected to the fields
the notifier logic reads: the current requested mask and the userdata of
the outstanding submission (the waiter queue and the weak iops reference
carry no notifier state). -/
structure GuestFdInfo where
  mask : Nat
  userdata : Option Nat
  deriving DecidableEq

/-- One outstanding submission of the io-uring: the userdata index it was
created under, the polled fd, and the requested mask. -/
structure Submission where
  idx : Nat
  fd : Int
  mask : Nat
  deriving DecidableEq

/-- Modelled from the spec: the submission-ring state behind
IOURING.AsyncPollAdd / AsyncPollRemove. nextIdx is the next fresh userdata
index, active the outstanding submissions, addCount the number of
AsyncPollAdd calls ever issued (for counting submissions). -/
structure RingState where
  nextIdx : Nat
  active : List Submission
  addCount : Nat
  deriving DecidableEq

/-- Modelled from the spec: AsyncPollAdd(fd, mask) submits a poll and
returns its fresh userdata index. -/
def AsyncPollAdd (r : RingState) (fd : Int) (mask : Nat) : Nat × RingState :=
  (r.nextIdx, ⟨r.nextIdx + 1, r.active ++ [⟨r.nextIdx, fd, mask⟩], r.addCount + 1⟩)

/-- Modelled from the spec: AsyncPollRemove(userdata) cancels the
outstanding submission with that userdata. -/
def AsyncPollRemove (r : RingState) (idx : Nat) : RingState :=
  { r with active := r.active.filter (fun s => s.idx ≠ idx) }

/-- NotifierInternal from guestfdnotifier.rs: the fd map (association list,
mirroring the BTreeMap) together with the ring the notifier submits to. -/
structure NotifierState where
  fdMap : List (Int × GuestFdInfo)
  ring : RingState
  deriving DecidableEq

/-- lookupFD is the fdMap.get of the source. -/
def lookupFD (m : List (Int × GuestFdInfo)) (fd : Int) : Option GuestFdInfo :=
  match m.find? (fun p => p.1 = fd) with
  | some p => some p.2
  | none => none

/-- setFD is the in-place update of the entry of fd obtained through
fdMap.get_mut. -/
def setFD (m : List (Int × GuestFdInfo)) (fd : Int) (fi : GuestFdInfo) :
    List (Int × GuestFdInfo) :=
  m.map (fun p => if p.1 = fd then (fd, fi) else p)

/-- Notifier::Waitfd from guestfdnotifier.rs lines 88-121: none models the
two panics (unknown fd; non-zero mask without userdata). A call with the
current mask is a no-op; otherwise the outstanding submission (if any) is
removed, a new one is submitted when the new mask is non-zero, and the mask
is stored. -/
def Waitfd (st : NotifierState) (fd : Int) (mask : Nat) : Option NotifierState :=
  match lookupFD st.fdMap fd with
  | none => none
  | some fi =>
    if fi.mask = mask then some st
    else if fi.mask ≠ 0 then
      match fi.userdata with
      | none => none
      | some idx =>
        if mask ≠ 0 then
          some ⟨setFD st.fdMap fd
                  ⟨mask, some (AsyncPollAdd (AsyncPollRemove st.ring idx) fd mask).1⟩,
                (AsyncPollAdd (AsyncPollRemove st.ring idx) fd mask).2⟩
        else some ⟨setFD st.fdMap fd ⟨mask, none⟩, AsyncPollRemove st.ring idx⟩
    else
      if mask ≠ 0 then
        some ⟨setFD st.fdMap fd ⟨mask, some (AsyncPollAdd st.ring fd mask).1⟩,
              (AsyncPollAdd st.ring fd mask).2⟩
      else some ⟨setFD st.fdMap fd ⟨mask, fi.userdata⟩, st.ring⟩

/-- Notifier::UpdateFD from guestfdnotifier.rs lines 123-139: a missing fd
is a silent success; otherwise Waitfd is called with the current event mask
of the waiter queue (qEvents, a parameter of the model since the queue
contents are outside the notifier state). -/
def UpdateFD (st : NotifierState) (fd : Int) (qEvents : Nat) : Option NotifierState :=
  match lookupFD st.fdMap fd with
  | none => some st
  | some _ => Waitfd st fd qEvents

/-- Notifier::AddFD from guestfdnotifier.rs lines 141-156: none models the
panic on a double add; a fresh entry starts with mask 0 and no
submission. -/
def AddFD (st : NotifierState) (fd : Int) : Option NotifierState :=
  match lookupFD st.fdMap fd with
  | some _ => none
  | none => some ⟨st.fdMap ++ [(fd, ⟨0, none⟩)], st.ring⟩

/-- Notifier::RemoveFD from guestfdnotifier.rs lines 158-174: none models
the panic on a missing fd; the entry is removed and its outstanding
submission, if any, is cancelled. -/
def RemoveFD (st : NotifierState) (fd : Int) : Option NotifierState :=
  match lookupFD st.fdMap fd with
  | none => none
  | some fi =>
    match fi.userdata with
    | some idx => some ⟨st.fdMap.filter (fun p => p.1 ≠ fd), AsyncPollRemove st.ring idx⟩
    | none => some ⟨st.fdMap.filter (fun p => p.1 ≠ fd), st.ring⟩

/-- One notifier operation; qEvents carries the waiter-queue event mask
UpdateFD reads. -/
inductive NotifierOp where
  | addFD (fd : Int)
  | waitfd (fd : Int) (mask : Nat)
  | updateFD (fd : Int) (qEvents : Nat)
  | removeFD (fd : Int)

/-- stepNotifier runs one notifier operation (none models a panic). -/
def stepNotifier (st : NotifierState) (op : NotifierOp) : Option NotifierState :=
  match op with
  | NotifierOp.addFD fd => AddFD st fd
  | NotifierOp.waitfd fd mask => Waitfd st fd mask
  | NotifierOp.updateFD fd q => UpdateFD st fd q
  | NotifierOp.removeFD fd => RemoveFD st fd

/-- runNotifier runs a sequence of notifier operations. -/
def runNotifier (st : NotifierState) (ops : List NotifierOp) : Option NotifierState :=
  match ops with
  | [] => some st
  | op :: rest =>
    match stepNotifier st op with
    | none => none
    | some st1 => runNotifier st1 rest

/-- NotifierInv: the fd keys are distinct (BTreeMap keys), the outstanding
submission indices are distinct and below the next fresh index, and every
present entry holds a userdata exactly when its mask is non-zero, the
userdata naming an outstanding submission for this fd whose requested mask
equals the stored mask. -/
def NotifierInv (st : NotifierState) : Prop :=
  (st.fdMap.map Prod.fst).Nodup ∧
  (st.ring.active.map Submission.idx).Nodup ∧
  (∀ sub ∈ st.ring.active, sub.idx < st.ring.nextIdx) ∧
  (∀ p ∈ st.fdMap, (p.2.userdata.isSome ↔ p.2.mask ≠ 0) ∧
    ∀ i ∈ p.2.userdata.toList, Submission.mk i p.1 p.2.mask ∈ st.ring.active)

instance (st : NotifierState) : Decidable (NotifierInv st) := by
  unfold NotifierInv
  infer_instance

/-- FIONREAD ioctl command number (qlib/linux_def.rs IoCtlCmd, not under
src/; standard Linux value 0x541B). -/
def FIONREAD : Nat := 0x541B

/-- I32MAX is core::i32::MAX. -/
def I32MAX : Nat := 2147483647

/-- One user-memory store performed through Task::CopyOutObj: the target
address, the byte width of the copied Rust type, and the numeric value. -/
structure CopyOut where
  addr : Nat
  width : Nat
  value : Nat
  deriving DecidableEq

/-- ReaderWriter::Ioctl from kernel/pipe/reader_writer.rs lines 131-144,
with queued the current pipe.Queued() byte count and val the user address:
FIONREAD clamps the count at i32::MAX and copies out the result with
CopyOutObj over v, whose type is usize (8 bytes); any other request is
ENOTTY. -/
def ReaderWriterIoctl (queued : Nat) (request : Nat) (val : Nat) :
    Except Error (Option CopyOut) :=
  if request = FIONREAD then
    let v := queued
    let v := if v > I32MAX then I32MAX else v
    Except.ok (some ⟨val, 8, v⟩)
  else Except.error (Error.SysError SysErr.ENOTTY)

/-- Per-file mutable state File::Readv touches: the stored offset and the
global /fs/reads counter (READS). -/
structure FileState where
  offset : Int
  readsCounter : Nat
  deriving DecidableEq

/-- File::Readv from fs/file.rs lines 568-593. seekable is
FileOp.Seekable(); readAt gives the result of FileOp.ReadAt at an offset
(the iovecs and the blocking flag are ambient). On the seekable path the
counter is incremented, the read happens at the stored offset and a
positive byte count advances the offset; on the non-seekable path the read
happens at offset 0 and the state is untouched. -/
def Readv (seekable : Bool) (readAt : Int → Except Error Int) (st : FileState) :
    Except Error Int × FileState :=
  if seekable then
    let st1 : FileState := { st with readsCounter := st.readsCounter + 1 }
    match readAt st.offset with
    | Except.error e => (Except.error e, st1)
    | Except.ok n =>
      if n > 0 then (Except.ok n, { st1 with offset := st.offset + n })
      else (Except.ok n, st1)
  else
    match readAt 0 with
    | Except.error e => (Except.error e, st)
    | Except.ok n => (Except.ok n, st)

/-- tView projects a thread state to every field except the
pending-interrupt flag; the interrupt re-routing steps of
setSignalMaskLocked change nothing under this projection. -/
def tView (t : ThreadState) :
    TaskExitState × Nat × Nat × List SignalInfo × Option TaskStopType × Bool × Bool × Bool :=
  (t.exitState, t.signalMask, t.realSignalMask, t.pendingSignals, t.stop, t.killed,
    t.groupStopPending, t.groupStopAcknowledged)

/-- gScalars projects a thread-group state to its non-task fields. -/
def gScalars (g : ThreadGroupState) :
    List SignalInfo × List (Int × SigAct) × Bool × Int × Int × Bool × Bool × Bool × Bool ×
      Bool × Bool × Int :=
  (g.pendingSignals, g.actions, g.groupStopDequeued, g.groupStopSignal,
    g.groupStopPendingCount, g.groupStopComplete, g.groupStopWaitable, g.groupContNotify,
    g.groupContInterrupted, g.groupContWaitable, g.exiting, g.exitStatusSigno)

/-- maskView is the part of the thread-group state that interrupt-flag
updates leave untouched. -/
def maskView (g : ThreadGroupState) := (gScalars g, g.tasks.map tView)

theorem list_set_getD_self (l : List α) (i : Nat) (d : α) : l.set i (l.getD i d) = l := by
  induction l generalizing i with
  | nil => rfl
  | cons x xs ih =>
    cases i with
    | zero => rfl
    | succ n =>
      simp only [List.set, List.getD_cons_succ]
      rw [ih n]

theorem list_getD_map (f : α → β) (l : List α) (i : Nat) (d : α) :
    (l.map f).getD i (f d) = f (l.getD i d) := by
  induction l generalizing i with
  | nil => rfl
  | cons x xs ih =>
    cases i with
    | zero => rfl
    | succ n => simpa using ih n

theorem map_eq_getD {f : α → β} {l1 l2 : List α} (h : l1.map f = l2.map f) (i : Nat) (d : α) :
    f (l1.getD i d) = f (l2.getD i d) := by
  rw [← list_getD_map f l1 i d, ← list_getD_map f l2 i d, h]

theorem updateTask_length (tg : ThreadGroupState) (i : Nat) (f : ThreadState → ThreadState) :
    (updateTask tg i f).tasks.length = tg.tasks.length := by
  simp [updateTask]

theorem updateTask_gScalars (tg : ThreadGroupState) (i : Nat) (f : ThreadState → ThreadState) :
    gScalars (updateTask tg i f) = gScalars tg := rfl

theorem updateTask_map_proj (proj : ThreadState → β) (tg : ThreadGroupState) (i : Nat)
    (f : ThreadState → ThreadState) (hf : ∀ t, proj (f t) = proj t) :
    (updateTask tg i f).tasks.map proj = tg.tasks.map proj := by
  simp only [updateTask, List.map_set, hf]
  rw [← list_getD_map proj tg.tasks i defaultThread, list_set_getD_self]

theorem updateTask_maskView (tg : ThreadGroupState) (i : Nat)
    (f : ThreadState → ThreadState) (hf : ∀ t, tView (f t) = tView t) :
    maskView (updateTask tg i f) = maskView tg := by
  simp only [maskView, updateTask_gScalars, updateTask_map_proj tView tg i f hf]

theorem updateTask_getD_other (tg : ThreadGroupState) (i j : Nat)
    (f : ThreadState → ThreadState) (h : j ≠ i) :
    (updateTask tg i f).tasks.getD j defaultThread = tg.tasks.getD j defaultThread := by
  simp only [updateTask, List.getD]
  rw [List.get?_set_ne _ _ (fun hh => h hh.symm)]

theorem updateTask_getD_self (tg : ThreadGroupState) (i : Nat)
    (f : ThreadState → ThreadState) (h : i < tg.tasks.length) :
    (updateTask tg i f).tasks.getD i defaultThread
      = f (tg.tasks.getD i defaultThread) := by
  simp only [updateTask, List.getD]
  rw [List.get?_set_eq_of_lt _ h]
  rfl

theorem foldl_if_preserve {α β : Type _} (proj : α → β) (set : Nat) (step : α → Int → α)
    (h : ∀ a s, proj (step a s) = proj a) (l : List Nat) (init : α) :
    proj (l.foldl (fun a i => if Nat.testBit set i then step a (Int.ofNat (i + 1)) else a) init)
      = proj init := by
  induction l generalizing init with
  | nil => rfl
  | cons x xs ih =>
    simp only [List.foldl_cons]
    rw [ih]
    by_cases hx : Nat.testBit set x
    · rw [if_pos hx, h]
    · rw [if_neg hx]

theorem testBit_compl64 (x i : Nat) (hi : i < 64) :
    Nat.testBit (compl64 x) i = ! Nat.testBit x i := by
  have h1 : Nat.testBit ALL64 i = true := by
    have h2 : ALL64 = 2 ^ 64 - 1 := rfl
    rw [h2, Nat.testBit_two_pow_sub_one]
    simpa using hi
  simp [compl64, Nat.testBit_xor, h1]

theorem unblocked_eq_unmaskable : UNBLOCKED_SIGNALS = UNMASKABLE_MASK := by decide

theorem and_compl_self_zero (m U : Nat) (hU : U < 2 ^ 64) :
    (m &&& compl64 U) &&& U = 0 := by
  apply Nat.eq_of_testBit_eq
  intro i
  simp only [Nat.testBit_land, Nat.zero_testBit]
  by_cases hi : i < 64
  · rw [testBit_compl64 _ _ hi]
    cases hx : Nat.testBit U i <;> simp
  · have hz : Nat.testBit U i = false :=
      Nat.testBit_lt_two_pow
        (lt_of_lt_of_le hU (Nat.pow_le_pow_right (by norm_num) (le_of_not_lt hi)))
    simp [hz]

theorem and_compl64_id (x U : Nat) (hzero : x &&& U = 0) (hx : x < 2 ^ 64) :
    x &&& compl64 U = x := by
  apply Nat.eq_of_testBit_eq
  intro i
  simp only [Nat.testBit_land]
  by_cases hi : i < 64
  · rw [testBit_compl64 _ _ hi]
    have h0 := congrArg (fun n => Nat.testBit n i) hzero
    simp only [Nat.testBit_land, Nat.zero_testBit] at h0
    cases hU : Nat.testBit U i
    · simp
    · simp only [hU, Bool.and_true] at h0
      simp [h0]
  · have hz : Nat.testBit x i = false :=
      Nat.testBit_lt_two_pow
        (lt_of_lt_of_le hx (Nat.pow_le_pow_right (by norm_num) (le_of_not_lt hi)))
    simp [hz]

theorem ssml_maskView (tg : ThreadGroupState) (tid : Nat) (m : Nat) :
    maskView (setSignalMaskLocked tg tid m)
      = maskView (updateTask tg tid
          (fun t => { t with signalMask := m &&& compl64 UNMASKABLE_MASK })) := by
  have hTrue : ∀ g : ThreadGroupState, ∀ i : Nat,
      maskView (updateTask g i (fun t => { t with interrupted := true })) = maskView g :=
    fun g i => updateTask_maskView g i _ (fun t => rfl)
  have hFalse : ∀ g : ThreadGroupState, ∀ i : Nat,
      maskView (updateTask g i (fun t => { t with interrupted := false })) = maskView g :=
    fun g i => updateTask_maskView g i _ (fun t => rfl)
  have hstep : ∀ (g : ThreadGroupState) (sig : Int),
      maskView (match findSignalReceiverLocked g sig with
        | some j => updateTask g j (fun t => { t with interrupted := true })
        | none => g) = maskView g := by
    intro g sig
    cases findSignalReceiverLocked g sig with
    | some j => exact hTrue g j
    | none => rfl
  have hfold : ∀ (s : Nat) (g : ThreadGroupState),
      maskView (forEachSignal s (fun g sig =>
        match findSignalReceiverLocked g sig with
        | some j => updateTask g j (fun t => { t with interrupted := true })
        | none => g) g) = maskView g := by
    intro s g
    exact foldl_if_preserve maskView s _ (fun a x => hstep a x) (List.range 64) g
  simp only [setSignalMaskLocked]
  split
  · split
    · rw [hTrue, hTrue, hfold, hFalse]
    · rw [hTrue, hfold, hFalse]
  · split
    · rw [hTrue]
    · rfl

theorem maskView_gScalars {g1 g2 : ThreadGroupState} (h : maskView g1 = maskView g2) :
    gScalars g1 = gScalars g2 := congrArg Prod.fst h

theorem maskView_tasks {g1 g2 : ThreadGroupState} (h : maskView g1 = maskView g2) :
    g1.tasks.map tView = g2.tasks.map tView := congrArg Prod.snd h

theorem maskView_length {g1 g2 : ThreadGroupState} (h : maskView g1 = maskView g2) :
    g1.tasks.length = g2.tasks.length := by
  have h1 := congrArg List.length (maskView_tasks h)
  simpa using h1

theorem maskView_getD {g1 g2 : ThreadGroupState} (h : maskView g1 = maskView g2) (i : Nat) :
    tView (g1.tasks.getD i defaultThread) = tView (g2.tasks.getD i defaultThread) :=
  map_eq_getD (maskView_tasks h) i defaultThread

theorem tView_signalMask {t1 t2 : ThreadState} (h : tView t1 = tView t2) :
    t1.signalMask = t2.signalMask := by
  have h1 := congrArg (fun p => p.2.1) h
  simpa [tView] using h1

theorem tView_realSignalMask {t1 t2 : ThreadState} (h : tView t1 = tView t2) :
    t1.realSignalMask = t2.realSignalMask := by
  have h1 := congrArg (fun p => p.2.2.1) h
  simpa [tView] using h1

theorem tView_pendingSignals {t1 t2 : ThreadState} (h : tView t1 = tView t2) :
    t1.pendingSignals = t2.pendingSignals := by
  have h1 := congrArg (fun p => p.2.2.2.1) h
  simpa [tView] using h1

theorem tView_exitState {t1 t2 : ThreadState} (h : tView t1 = tView t2) :
    t1.exitState = t2.exitState := by
  have h1 := congrArg (fun p => p.1) h
  simpa [tView] using h1

theorem gScalars_pendingSignals {g1 g2 : ThreadGroupState} (h : gScalars g1 = gScalars g2) :
    g1.pendingSignals = g2.pendingSignals := by
  have h1 := congrArg (fun p => p.1) h
  simpa [gScalars] using h1

theorem ssml_length (tg : ThreadGroupState) (tid : Nat) (m : Nat) :
    (setSignalMaskLocked tg tid m).tasks.length = tg.tasks.length := by
  have h := maskView_length (ssml_maskView tg tid m)
  simpa [updateTask_length] using h

theorem ssml_self_tView (tg : ThreadGroupState) (tid : Nat) (m : Nat)
    (h : tid < tg.tasks.length) :
    tView ((setSignalMaskLocked tg tid m).tasks.getD tid defaultThread)
      = tView { tg.tasks.getD tid defaultThread with
          signalMask := m &&& compl64 UNMASKABLE_MASK } := by
  have h1 := maskView_getD (ssml_maskView tg tid m) tid
  rwa [updateTask_getD_self tg tid _ h] at h1

theorem ssml_other_tView (tg : ThreadGroupState) (tid j : Nat) (m : Nat) (h : j ≠ tid) :
    tView ((setSignalMaskLocked tg tid m).tasks.getD j defaultThread)
      = tView (tg.tasks.getD j defaultThread) := by
  have h1 := maskView_getD (ssml_maskView tg tid m) j
  rwa [updateTask_getD_other tg tid j _ h] at h1

theorem ssml_gScalars (tg : ThreadGroupState) (tid : Nat) (m : Nat) :
    gScalars (setSignalMaskLocked tg tid m) = gScalars tg := by
  have h := maskView_gScalars (ssml_maskView tg tid m)
  simpa [updateTask_gScalars] using h

/-- stopView projects the three group-stop fields that the early-return test
of endGroupStopLocked reads, together with the dequeued flag. -/
def stopView (g : ThreadGroupState) : Bool × Int × Bool :=
  (g.groupStopDequeued, g.groupStopPendingCount, g.groupStopComplete)

theorem discard_fold_stopView (tg : ThreadGroupState) :
    stopView (forEachSignal STOP_SIGNALS (fun g sig => discardSpecificLocked g sig) tg)
      = stopView tg :=
  foldl_if_preserve stopView STOP_SIGNALS (fun g sig => discardSpecificLocked g sig)
    (fun _ _ => rfl) (List.range 64) tg

theorem applySideEffects_sigcont (tg : ThreadGroupState) :
    applySignalSideEffectsLocked tg Signal.SIGCONT = endGroupStopLocked tg true := by
  unfold applySignalSideEffectsLocked
  rw [if_neg (by decide), if_pos rfl]

/-- Counterexample for C5: in the state where groupStopPendingCount is 0 and
groupStopComplete is false but groupStopDequeued is true, the SIGCONT side
effect (applySignalSideEffectsLocked calling endGroupStopLocked) returns
with groupStopDequeued still true: endGroupStopLocked returns early without
clearing the flag. -/
theorem C5_groupStopDequeued_cex :
    (ThreadGroupState.mk [] [] true 0 0 false false false false false false 0
        []).groupStopPendingCount = 0 ∧
    (ThreadGroupState.mk [] [] true 0 0 false false false false false false 0
        []).groupStopComplete = false ∧
    (applySignalSideEffectsLocked
        (ThreadGroupState.mk [] [] true 0 0 false false false false false false 0 [])
        Signal.SIGCONT).groupStopDequeued = true := by
  refine ⟨rfl, rfl, ?_⟩
  rw [applySideEffects_sigcont]
  decide

/-- C5 amended: when the SIGCONT side effect runs endGroupStopLocked, the
groupStopDequeued flag is false on return whenever the entry state had
groupStopPendingCount non-zero or groupStopComplete set; in the remaining
state (count 0 and not complete) endGroupStopLocked returns early and
leaves the flag unchanged. -/
theorem C5_groupStopDequeued_amended (tg : ThreadGroupState) :
    (tg.groupStopPendingCount ≠ 0 ∨ tg.groupStopComplete = true →
      (applySignalSideEffectsLocked tg Signal.SIGCONT).groupStopDequeued = false) ∧
    (tg.groupStopPendingCount = 0 → tg.groupStopComplete = false →
      (applySignalSideEffectsLocked tg Signal.SIGCONT).groupStopDequeued
        = tg.groupStopDequeued) := by
  rw [applySideEffects_sigcont]
  have hpres := discard_fold_stopView tg
  have hcount := congrArg (fun p => p.2.1) hpres
  have hcomp := congrArg (fun p => p.2.2) hpres
  have hdeq := congrArg (fun p => p.1) hpres
  simp only [stopView] at hcount hcomp hdeq
  constructor
  · intro hc
    simp only [endGroupStopLocked]
    split
    · next hcond =>
      exfalso
      rcases hc with hc | hc
      · exact hc (by rw [← hcount]; exact hcond.1)
      · rw [← hcomp] at hc
        rw [hcond.2] at hc
        exact Bool.false_ne_true hc
    · rfl
  · intro h1 h2
    simp only [endGroupStopLocked]
    split
    · next hcond => exact hdeq
    · next hcond =>
      exfalso
      exact hcond ⟨by rw [hcount]; exact h1, by rw [hcomp]; exact h2⟩

/-- Witness for C5 amended at a concrete state: one pending group-stop
participant, so the side effect clears groupStopDequeued. -/
theorem C5_groupStopDequeued_amended_witness :
    ((ThreadGroupState.mk [] [] true 0 1 false false false false false false 0
        []).groupStopPendingCount ≠ 0 ∨
      (ThreadGroupState.mk [] [] true 0 1 false false false false false false 0
        []).groupStopComplete = true) ∧
    (applySignalSideEffectsLocked
        (ThreadGroupState.mk [] [] true 0 1 false false false false false false 0 [])
        Signal.SIGCONT).groupStopDequeued = false :=
  ⟨Or.inl (by decide),
    (C5_groupStopDequeued_amended
        (ThreadGroupState.mk [] [] true 0 1 false false false false false false 0 [])).1
      (Or.inl (by decide))⟩

/-- C8 evaluated at its failing input: with 10 bytes queued, the FIONREAD
ioctl succeeds with numeric value 10 and copies out an 8-byte usize (the
CopyOut width is 8, not the 4 bytes of the i32 the claim describes); an
oversized count is clamped to i32::MAX but still copied as a usize; every
other request is ENOTTY. -/
theorem C8_pipe_fionread_eval :
    ReaderWriterIoctl 10 FIONREAD 4096 = Except.ok (some (CopyOut.mk 4096 8 10)) ∧
    ReaderWriterIoctl (2 ^ 31) FIONREAD 4096
      = Except.ok (some (CopyOut.mk 4096 8 I32MAX)) ∧
    (8 : Nat) ≠ 4 ∧
    ReaderWriterIoctl 10 21537 4096 = Except.error (Error.SysError SysErr.ENOTTY) := by
  refine ⟨by decide, by decide, by decide, by decide⟩

/-- C9: Readv on a seekable file reads at the stored offset and, when the
read succeeds with a non-negative byte count, the stored offset advances by
exactly that count (so it is unchanged for a zero-byte read); on a
non-seekable file the read happens at offset 0 and the stored state is
unchanged. -/
theorem C9_Readv_offset (readAt : Int → Except Error Int) (st : FileState) :
    (∀ n : Int, readAt st.offset = Except.ok n → 0 ≤ n →
      (Readv true readAt st).1 = Except.ok n ∧
      (Readv true readAt st).2.offset = st.offset + n) ∧
    ((Readv false readAt st).1 = readAt 0 ∧ (Readv false readAt st).2 = st) := by
  constructor
  · intro n hr hn
    by_cases hpos : n > 0
    · constructor
      · simp [Readv, hr, hpos]
      · simp [Readv, hr, hpos]
    · have h0 : n = 0 := le_antisymm (not_lt.mp hpos) hn
      subst h0
      constructor
      · simp [Readv, hr]
      · simp [Readv, hr]
  · constructor
    · cases h : readAt 0 <;> simp [Readv, h]
    · cases h : readAt 0 <;> simp [Readv, h]

/-- Witness for C9 at a concrete file: a seekable file at offset 5 whose
ReadAt returns 2 bytes ends at offset 7. -/
theorem C9_Readv_offset_witness :
    (Readv true (fun _ => Except.ok 2) (FileState.mk 5 0)).1 = Except.ok 2 ∧
    (Readv true (fun _ => Except.ok 2) (FileState.mk 5 0)).2.offset
      = (FileState.mk 5 0).offset + 2 :=
  (C9_Readv_offset (fun _ => Except.ok 2) (FileState.mk 5 0)).1 2 rfl (by decide)

theorem deque_not_masked (q : List SignalInfo) (mask : Nat) (si : SignalInfo) :
    (deque q mask).1 = some si → Nat.testBit mask (si.Signo - 1).toNat = false := by
  induction q with
  | nil => intro h; simp [deque] at h
  | cons x rest ih =>
    intro h
    simp only [deque] at h
    by_cases hx : Nat.testBit mask (x.Signo - 1).toNat
    · rw [if_pos hx] at h
      exact ih h
    · rw [if_neg hx] at h
      simp only [Option.some.injEq] at h
      rw [← h]
      exact Bool.eq_false_iff.mpr hx

theorem dequeueSignalLocked_not_masked (tg : ThreadGroupState) (tid : Nat) (mask : Nat)
    (si : SignalInfo) (tg' : ThreadGroupState) :
    dequeueSignalLocked tg tid mask = (some si, tg') →
    Nat.testBit mask (si.Signo - 1).toNat = false := by
  intro h
  unfold dequeueSignalLocked at h
  rcases hq1 : deque (tg.tasks.getD tid defaultThread).pendingSignals mask with ⟨o1, q1⟩
  rw [hq1] at h
  cases o1 with
  | some si1 =>
    have h1 : some si1 = some si := congrArg Prod.fst h
    have h2 : si1 = si := by injection h1
    rw [← h2]
    exact deque_not_masked _ mask si1 (by rw [hq1])
  | none =>
    rcases hq2 : deque tg.pendingSignals mask with ⟨o2, q2⟩
    rw [hq2] at h
    cases o2 with
    | some si2 =>
      have h1 : some si2 = some si := congrArg Prod.fst h
      have h2 : si2 = si := by injection h1
      rw [← h2]
      exact deque_not_masked _ mask si2 (by rw [hq2])
    | none =>
      exact absurd (congrArg Prod.fst h) (by simp)

theorem sigtimedwaitFinish_ok_not_masked (g : ThreadGroupState) (tid : Nat) (mask : Nat)
    (we : Int) (si : SignalInfo) :
    (sigtimedwaitFinish g tid mask we).1 = Except.ok si →
    Nat.testBit mask (si.Signo - 1).toNat = false := by
  intro h
  unfold sigtimedwaitFinish at h
  rcases hd : dequeueSignalLocked g tid mask with ⟨o, tgF⟩
  rw [hd] at h
  cases o with
  | some si1 =>
    have h2 : si1 = si := by
      have h1 : Except.ok (α := SignalInfo) (ε := Error) si1 = Except.ok si := h
      injection h1
    rw [← h2]
    exact dequeueSignalLocked_not_masked _ _ _ _ _ hd
  | none =>
    by_cases hw : we = SysErr.ETIMEDOUT <;> simp [hw] at h

theorem sigwait_mask_bit (set : Nat) (i : Nat) (hi : i < 64)
    (hU : Nat.testBit UNBLOCKED_SIGNALS i = true) :
    Nat.testBit (compl64 (set &&& compl64 UNBLOCKED_SIGNALS)) i = true := by
  rw [testBit_compl64 _ _ hi]
  simp only [Nat.testBit_land]
  rw [testBit_compl64 _ _ hi, hU]
  simp

/-- C10: whatever the input set, the timeout, the pending queues and the
wake outcome, Sigtimedwait never returns an info whose Signo is SIGKILL or
SIGSTOP: the temporary mask always contains both signals and the dequeues
only return signals outside the mask. -/
theorem C10_Sigtimedwait_never_kill_stop (tg : ThreadGroupState) (tid : Nat) (set : Nat)
    (timeout : Int) (ws wg : List SignalInfo) (we : Int) (si : SignalInfo) :
    (Sigtimedwait tg tid set timeout ws wg we).1 = Except.ok si →
    si.Signo ≠ Signal.SIGKILL ∧ si.Signo ≠ Signal.SIGSTOP := by
  intro h
  have hbit : Nat.testBit (compl64 (set &&& compl64 UNBLOCKED_SIGNALS))
      (si.Signo - 1).toNat = false := by
    simp only [Sigtimedwait] at h
    rcases hd1 : dequeueSignalLocked tg tid (compl64 (set &&& compl64 UNBLOCKED_SIGNALS))
      with ⟨o1, tg1⟩
    rw [hd1] at h
    cases o1 with
    | some si1 =>
      have h2 : si1 = si := by
        have h1 : Except.ok (α := SignalInfo) (ε := Error) si1 = Except.ok si := h
        injection h1
      rw [← h2]
      exact dequeueSignalLocked_not_masked _ _ _ _ _ hd1
    | none =>
      by_cases ht : timeout = 0
      · simp [ht] at h
      · simp only [ht, if_false] at h
        exact sigtimedwaitFinish_ok_not_masked _ _ _ _ _ h
  constructor
  · intro h9
    rw [h9] at hbit
    have htrue := sigwait_mask_bit set 8 (by decide) (by decide)
    rw [show ((Signal.SIGKILL - 1).toNat) = 8 from by decide] at hbit
    rw [hbit] at htrue
    exact Bool.false_ne_true htrue
  · intro h19
    rw [h19] at hbit
    have htrue := sigwait_mask_bit set 18 (by decide) (by decide)
    rw [show ((Signal.SIGSTOP - 1).toNat) = 18 from by decide] at hbit
    rw [hbit] at htrue
    exact Bool.false_ne_true htrue

/-- Witness for C10 at a concrete state: a thread with pending signal 31 and
set containing signal 31 dequeues it, and 31 is neither SIGKILL nor
SIGSTOP. -/
theorem C10_Sigtimedwait_never_kill_stop_witness :
    (SignalInfo.mk 31).Signo ≠ Signal.SIGKILL ∧
    (SignalInfo.mk 31).Signo ≠ Signal.SIGSTOP :=
  C10_Sigtimedwait_never_kill_stop
    (ThreadGroupState.mk [] [] false 0 0 false false false false false false 0
      [ThreadState.mk TaskExitState.TaskExitNone 0 0 [SignalInfo.mk 31] none false false
        false false])
    0 (2 ^ 30) 0 [] [] 0 (SignalInfo.mk 31) (by decide)

theorem sigtimedwaitFinish_snd (g : ThreadGroupState) (tid : Nat) (mask : Nat) (we : Int) :
    (sigtimedwaitFinish g tid mask we).2 = (dequeueSignalLocked g tid mask).2 := by
  unfold sigtimedwaitFinish
  rcases hd : dequeueSignalLocked g tid mask with ⟨o, tgF⟩
  cases o with
  | some si1 => rfl
  | none =>
    by_cases hw : we = SysErr.ETIMEDOUT
    · simp [hw]
    · simp [hw]

theorem dequeueSignalLocked_fst_none (g : ThreadGroupState) (tid : Nat) (mask : Nat)
    (h1 : (deque (g.tasks.getD tid defaultThread).pendingSignals mask).1 = none)
    (h2 : (deque g.pendingSignals mask).1 = none) :
    dequeueSignalLocked g tid mask = (none, g) := by
  unfold dequeueSignalLocked
  rcases hq1 : deque (g.tasks.getD tid defaultThread).pendingSignals mask with ⟨o1, q1⟩
  have ho1 : o1 = none := by rw [hq1] at h1; exact h1
  subst ho1
  rcases hq2 : deque g.pendingSignals mask with ⟨o2, q2⟩
  have ho2 : o2 = none := by rw [hq2] at h2; exact h2
  subst ho2
  rfl

theorem dequeueSignalLocked_snd_fields (g : ThreadGroupState) (tid : Nat) (mask : Nat)
    (j : Nat) (hj : j < g.tasks.length) :
    ((dequeueSignalLocked g tid mask).2.tasks.getD j defaultThread).signalMask
      = (g.tasks.getD j defaultThread).signalMask ∧
    ((dequeueSignalLocked g tid mask).2.tasks.getD j defaultThread).realSignalMask
      = (g.tasks.getD j defaultThread).realSignalMask ∧
    (dequeueSignalLocked g tid mask).2.tasks.length = g.tasks.length := by
  unfold dequeueSignalLocked
  rcases hq1 : deque (g.tasks.getD tid defaultThread).pendingSignals mask with ⟨o1, q1⟩
  cases o1 with
  | some si1 =>
    refine ⟨?_, ?_, updateTask_length _ _ _⟩
    · by_cases hji : j = tid
      · subst hji
        rw [updateTask_getD_self _ _ _ hj]
      · rw [updateTask_getD_other _ _ _ _ hji]
    · by_cases hji : j = tid
      · subst hji
        rw [updateTask_getD_self _ _ _ hj]
      · rw [updateTask_getD_other _ _ _ _ hji]
  | none =>
    rcases hq2 : deque g.pendingSignals mask with ⟨o2, q2⟩
    cases o2 with
    | some si2 => exact ⟨rfl, rfl, rfl⟩
    | none => exact ⟨rfl, rfl, rfl⟩

theorem wakeState_fields (tg : ThreadGroupState) (tid : Nat) (mask : Nat)
    (ws wg : List SignalInfo) (hlen : tid < tg.tasks.length) :
    ((sigtimedwaitWakeState tg tid mask ws wg).tasks.getD tid defaultThread).realSignalMask
      = 0 ∧
    ((sigtimedwaitWakeState tg tid mask ws wg).tasks.getD tid defaultThread).signalMask
      = (tg.tasks.getD tid defaultThread).signalMask &&& compl64 UNMASKABLE_MASK ∧
    ((sigtimedwaitWakeState tg tid mask ws wg).tasks.getD tid defaultThread).pendingSignals
      = ws ∧
    (sigtimedwaitWakeState tg tid mask ws wg).pendingSignals = wg ∧
    (sigtimedwaitWakeState tg tid mask ws wg).tasks.length = tg.tasks.length := by
  simp only [sigtimedwaitWakeState]
  set sm := (tg.tasks.getD tid defaultThread).signalMask with hsm
  set A := updateTask tg tid (fun t => { t with realSignalMask := sm }) with hA
  set B := setSignalMaskLocked A tid (sm &&& mask) with hB
  set C := { updateTask B tid (fun t => { t with pendingSignals := ws }) with
    pendingSignals := wg } with hC
  have hAlen : A.tasks.length = tg.tasks.length := updateTask_length _ _ _
  have hAself : A.tasks.getD tid defaultThread
      = { tg.tasks.getD tid defaultThread with realSignalMask := sm } :=
    updateTask_getD_self _ _ _ hlen
  have hBlen : B.tasks.length = tg.tasks.length := by
    rw [hB, ssml_length, hAlen]
  have hBtV : tView (B.tasks.getD tid defaultThread)
      = tView { A.tasks.getD tid defaultThread with
          signalMask := (sm &&& mask) &&& compl64 UNMASKABLE_MASK } :=
    ssml_self_tView A tid _ (by rw [hAlen]; exact hlen)
  have hBreal : (B.tasks.getD tid defaultThread).realSignalMask = sm := by
    have := tView_realSignalMask hBtV
    rw [this, hAself]
  have hClen : C.tasks.length = tg.tasks.length := by
    rw [hC]
    have : ({ updateTask B tid (fun t => { t with pendingSignals := ws }) with
        pendingSignals := wg } : ThreadGroupState).tasks
        = (updateTask B tid (fun t => { t with pendingSignals := ws })).tasks := rfl
    rw [this, updateTask_length, hBlen]
  have hCself : C.tasks.getD tid defaultThread
      = { B.tasks.getD tid defaultThread with pendingSignals := ws } := by
    rw [hC]
    have : ({ updateTask B tid (fun t => { t with pendingSignals := ws }) with
        pendingSignals := wg } : ThreadGroupState).tasks
        = (updateTask B tid (fun t => { t with pendingSignals := ws })).tasks := rfl
    show ((updateTask B tid (fun t => { t with pendingSignals := ws })).tasks.getD tid
      defaultThread) = _
    exact updateTask_getD_self _ _ _ (by rw [hBlen]; exact hlen)
  have hCreal : (C.tasks.getD tid defaultThread).realSignalMask = sm := by
    rw [hCself]
    exact hBreal
  set D := setSignalMaskLocked C tid ((C.tasks.getD tid defaultThread).realSignalMask)
    with hD
  have hDlen : D.tasks.length = tg.tasks.length := by
    rw [hD, ssml_length, hClen]
  have hDtV : tView (D.tasks.getD tid defaultThread)
      = tView { C.tasks.getD tid defaultThread with
          signalMask := (C.tasks.getD tid defaultThread).realSignalMask
            &&& compl64 UNMASKABLE_MASK } :=
    ssml_self_tView C tid _ (by rw [hClen]; exact hlen)
  have hDmask : (D.tasks.getD tid defaultThread).signalMask
      = sm &&& compl64 UNMASKABLE_MASK := by
    have h1 := tView_signalMask hDtV
    rw [h1, hCreal]
  have hDpend : (D.tasks.getD tid defaultThread).pendingSignals = ws := by
    have h1 := tView_pendingSignals hDtV
    rw [h1, hCself]
  have hDgroup : D.pendingSignals = wg := by
    have h1 := gScalars_pendingSignals
      (ssml_gScalars C tid ((C.tasks.getD tid defaultThread).realSignalMask))
    rw [hD, h1, hC]
  have hEself : (updateTask D tid (fun t => { t with realSignalMask := 0 })).tasks.getD tid
      defaultThread = { D.tasks.getD tid defaultThread with realSignalMask := 0 } :=
    updateTask_getD_self _ _ _ (by rw [hDlen]; exact hlen)
  refine ⟨?_, ?_, ?_, ?_, ?_⟩
  · rw [hEself]
  · rw [hEself]
    show (D.tasks.getD tid defaultThread).signalMask = _
    rw [hDmask]
  · rw [hEself]
    show (D.tasks.getD tid defaultThread).pendingSignals = _
    rw [hDpend]
  · show D.pendingSignals = wg
    exact hDgroup
  · rw [updateTask_length, hDlen]

/-- C6: Sigtimedwait returns EAGAIN immediately (with the state untouched)
when no matching signal is pending and the timeout is zero; when it blocks
and the wake is a timeout with still no matching signal it returns EAGAIN;
and on every return path after blocking the thread signal mask has been
restored to its original value and realSignalMask is 0. -/
theorem C6_Sigtimedwait_eagain_restore (tg : ThreadGroupState) (tid : Nat) (set : Nat)
    (timeout : Int) (ws wg : List SignalInfo) (we : Int)
    (hlen : tid < tg.tasks.length)
    (hm0 : (tg.tasks.getD tid defaultThread).signalMask &&& UNBLOCKED_SIGNALS = 0)
    (hmlt : (tg.tasks.getD tid defaultThread).signalMask < 2 ^ 64) :
    ((dequeueSignalLocked tg tid (compl64 (set &&& compl64 UNBLOCKED_SIGNALS))).1 = none →
      timeout = 0 →
      Sigtimedwait tg tid set timeout ws wg we
        = (Except.error (Error.SysError SysErr.EAGAIN), tg)) ∧
    ((dequeueSignalLocked tg tid (compl64 (set &&& compl64 UNBLOCKED_SIGNALS))).1 = none →
      timeout ≠ 0 →
      ((deque ws (compl64 (set &&& compl64 UNBLOCKED_SIGNALS))).1 = none →
        (deque wg (compl64 (set &&& compl64 UNBLOCKED_SIGNALS))).1 = none →
        we = SysErr.ETIMEDOUT →
        (Sigtimedwait tg tid set timeout ws wg we).1
          = Except.error (Error.SysError SysErr.EAGAIN)) ∧
      ((Sigtimedwait tg tid set timeout ws wg we).2.tasks.getD tid
          defaultThread).realSignalMask = 0 ∧
      ((Sigtimedwait tg tid set timeout ws wg we).2.tasks.getD tid
          defaultThread).signalMask = (tg.tasks.getD tid defaultThread).signalMask) := by
  constructor
  · intro hnone ht0
    simp only [Sigtimedwait]
    rcases hd1 : dequeueSignalLocked tg tid (compl64 (set &&& compl64 UNBLOCKED_SIGNALS))
      with ⟨o1, tg1⟩
    have ho1 : o1 = none := by rw [hd1] at hnone; exact hnone
    subst ho1
    simp [ht0]
  · intro hnone hne
    have hred : Sigtimedwait tg tid set timeout ws wg we
        = sigtimedwaitFinish
            (sigtimedwaitWakeState tg tid (compl64 (set &&& compl64 UNBLOCKED_SIGNALS)) ws wg)
            tid (compl64 (set &&& compl64 UNBLOCKED_SIGNALS)) we := by
      simp only [Sigtimedwait]
      rcases hd1 : dequeueSignalLocked tg tid (compl64 (set &&& compl64 UNBLOCKED_SIGNALS))
        with ⟨o1, tg1⟩
      have ho1 : o1 = none := by rw [hd1] at hnone; exact hnone
      subst ho1
      simp [hne]
    obtain ⟨hreal, hmaskW, hpendW, hgroupW, hlenW⟩ :=
      wakeState_fields tg tid (compl64 (set &&& compl64 UNBLOCKED_SIGNALS)) ws wg hlen
    refine ⟨?_, ?_, ?_⟩
    · intro hws hwg hwe
      rw [hred]
      have hdq : dequeueSignalLocked
          (sigtimedwaitWakeState tg tid (compl64 (set &&& compl64 UNBLOCKED_SIGNALS)) ws wg)
          tid (compl64 (set &&& compl64 UNBLOCKED_SIGNALS))
          = (none, sigtimedwaitWakeState tg tid
              (compl64 (set &&& compl64 UNBLOCKED_SIGNALS)) ws wg) :=
        dequeueSignalLocked_fst_none _ _ _ (by rw [hpendW]; exact hws)
          (by rw [hgroupW]; exact hwg)
      unfold sigtimedwaitFinish
      rw [hdq]
      simp [hwe]
    · rw [hred, sigtimedwaitFinish_snd]
      have h2 := dequeueSignalLocked_snd_fields
        (sigtimedwaitWakeState tg tid (compl64 (set &&& compl64 UNBLOCKED_SIGNALS)) ws wg)
        tid (compl64 (set &&& compl64 UNBLOCKED_SIGNALS)) tid (by rw [hlenW]; exact hlen)
      rw [h2.2.1, hreal]
    · rw [hred, sigtimedwaitFinish_snd]
      have h2 := dequeueSignalLocked_snd_fields
        (sigtimedwaitWakeState tg tid (compl64 (set &&& compl64 UNBLOCKED_SIGNALS)) ws wg)
        tid (compl64 (set &&& compl64 UNBLOCKED_SIGNALS)) tid (by rw [hlenW]; exact hlen)
      rw [h2.1, hmaskW, ← unblocked_eq_unmaskable]
      exact and_compl64_id _ _ hm0 hmlt

/-- Witness for C6 at a concrete thread group with one live thread, empty
queues and mask 0: zero timeout returns EAGAIN with the state unchanged;
with a 5-unit timeout and an ETIMEDOUT wake the call returns EAGAIN, and
realSignalMask is 0 and the signal mask is restored afterwards. -/
theorem C6_Sigtimedwait_eagain_restore_witness :
    (Sigtimedwait
        (ThreadGroupState.mk [] [] false 0 0 false false false false false false 0
          [ThreadState.mk TaskExitState.TaskExitNone 0 0 [] none false false false false])
        0 0 0 [] [] 0
      = (Except.error (Error.SysError SysErr.EAGAIN),
          ThreadGroupState.mk [] [] false 0 0 false false false false false false 0
            [ThreadState.mk TaskExitState.TaskExitNone 0 0 [] none false false false
              false])) ∧
    ((Sigtimedwait
        (ThreadGroupState.mk [] [] false 0 0 false false false false false false 0
          [ThreadState.mk TaskExitState.TaskExitNone 0 0 [] none false false false false])
        0 0 5 [] [] 110).1 = Except.error (Error.SysError SysErr.EAGAIN)) ∧
    (((Sigtimedwait
        (ThreadGroupState.mk [] [] false 0 0 false false false false false false 0
          [ThreadState.mk TaskExitState.TaskExitNone 0 0 [] none false false false false])
        0 0 5 [] [] 110).2.tasks.getD 0 defaultThread).realSignalMask = 0) ∧
    (((Sigtimedwait
        (ThreadGroupState.mk [] [] false 0 0 false false false false false false 0
          [ThreadState.mk TaskExitState.TaskExitNone 0 0 [] none false false false false])
        0 0 5 [] [] 110).2.tasks.getD 0 defaultThread).signalMask
      = ((ThreadGroupState.mk [] [] false 0 0 false false false false false false 0
          [ThreadState.mk TaskExitState.TaskExitNone 0 0 [] none false false false
            false]).tasks.getD 0 defaultThread).signalMask) :=
  ⟨(C6_Sigtimedwait_eagain_restore
      (ThreadGroupState.mk [] [] false 0 0 false false false false false false 0
        [ThreadState.mk TaskExitState.TaskExitNone 0 0 [] none false false false false])
      0 0 0 [] [] 0 (by decide) (by decide) (by decide)).1 (by decide) rfl,
    ((C6_Sigtimedwait_eagain_restore
      (ThreadGroupState.mk [] [] false 0 0 false false false false false false 0
        [ThreadState.mk TaskExitState.TaskExitNone 0 0 [] none false false false false])
      0 0 5 [] [] 110 (by decide) (by decide) (by decide)).2 (by decide) (by decide)).1
      (by decide) (by decide) rfl,
    ((C6_Sigtimedwait_eagain_restore
      (ThreadGroupState.mk [] [] false 0 0 false false false false false false 0
        [ThreadState.mk TaskExitState.TaskExitNone 0 0 [] none false false false false])
      0 0 5 [] [] 110 (by decide) (by decide) (by decide)).2 (by decide) (by decide)).2.1,
    ((C6_Sigtimedwait_eagain_restore
      (ThreadGroupState.mk [] [] false 0 0 false false false false false false 0
        [ThreadState.mk TaskExitState.TaskExitNone 0 0 [] none false false false false])
      0 0 5 [] [] 110 (by decide) (by decide) (by decide)).2 (by decide) (by decide)).2.2⟩

/-- MaskInvT: the thread blocks neither SIGKILL nor SIGSTOP, in either of
its two masks. -/
def MaskInvT (t : ThreadState) : Prop :=
  t.signalMask &&& UNBLOCKED_SIGNALS = 0 ∧ t.realSignalMask &&& UNBLOCKED_SIGNALS = 0

instance (t : ThreadState) : Decidable (MaskInvT t) := by
  unfold MaskInvT; infer_instance

/-- MaskInvTG: every thread of the group satisfies MaskInvT. -/
def MaskInvTG (tg : ThreadGroupState) : Prop := ∀ t ∈ tg.tasks, MaskInvT t

instance (tg : ThreadGroupState) : Decidable (MaskInvTG tg) := by
  unfold MaskInvTG; infer_instance

theorem maskInvT_default : MaskInvT defaultThread := by decide

theorem maskInv_getD (tg : ThreadGroupState) (i : Nat) (h : MaskInvTG tg) :
    MaskInvT (tg.tasks.getD i defaultThread) := by
  by_cases hi : i < tg.tasks.length
  · have hmem : tg.tasks.getD i defaultThread ∈ tg.tasks := by
      rw [List.getD_eq_getElem tg.tasks defaultThread hi]
      exact List.getElem_mem hi
    exact h _ hmem
  · have hd : tg.tasks.getD i defaultThread = defaultThread := by
      simp only [List.getD]
      rw [List.get?_eq_none.mpr (le_of_not_lt hi)]
      rfl
    rw [hd]
    exact maskInvT_default

theorem maskInv_updateTask (tg : ThreadGroupState) (i : Nat) (f : ThreadState → ThreadState)
    (hf : ∀ t, MaskInvT t → MaskInvT (f t)) (h : MaskInvTG tg) :
    MaskInvTG (updateTask tg i f) := by
  intro t ht
  rcases List.mem_or_eq_of_mem_set ht with hmem | heq
  · exact h _ hmem
  · rw [heq]
    exact hf _ (maskInv_getD tg i h)

theorem maskInvT_tView {t1 t2 : ThreadState} (heq : tView t1 = tView t2)
    (h : MaskInvT t2) : MaskInvT t1 := by
  unfold MaskInvT
  rw [tView_signalMask heq, tView_realSignalMask heq]
  exact h

theorem maskInv_mapEq {g1 g2 : ThreadGroupState}
    (heq : g1.tasks.map tView = g2.tasks.map tView) (h : MaskInvTG g2) :
    MaskInvTG g1 := by
  intro t ht
  have h1 : tView t ∈ g2.tasks.map tView := by
    rw [← heq]
    exact List.mem_map_of_mem tView ht
  rcases List.mem_map.mp h1 with ⟨t2, ht2, htv⟩
  exact maskInvT_tView htv.symm (h _ ht2)

theorem stripped_unblocked_zero (m : Nat) :
    (m &&& compl64 UNMASKABLE_MASK) &&& UNBLOCKED_SIGNALS = 0 := by
  rw [unblocked_eq_unmaskable]
  exact and_compl_self_zero m UNMASKABLE_MASK (by decide)

theorem maskInv_ssml (tg : ThreadGroupState) (tid : Nat) (m : Nat) (h : MaskInvTG tg) :
    MaskInvTG (setSignalMaskLocked tg tid m) := by
  apply maskInv_mapEq (maskView_tasks (ssml_maskView tg tid m))
  apply maskInv_updateTask
  · intro t ht
    exact ⟨stripped_unblocked_zero m, ht.2⟩
  · exact h

theorem maskInv_dequeue (tg : ThreadGroupState) (tid : Nat) (mask : Nat)
    (h : MaskInvTG tg) : MaskInvTG (dequeueSignalLocked tg tid mask).2 := by
  unfold dequeueSignalLocked
  rcases hq1 : deque (tg.tasks.getD tid defaultThread).pendingSignals mask with ⟨o1, q1⟩
  cases o1 with
  | some si1 =>
    exact maskInv_updateTask tg tid _ (fun t ht => ⟨ht.1, ht.2⟩) h
  | none =>
    rcases hq2 : deque tg.pendingSignals mask with ⟨o2, q2⟩
    cases o2 with
    | some si2 => exact h
    | none => exact h

theorem maskInv_wakeState (tg : ThreadGroupState) (tid : Nat) (mask : Nat)
    (ws wg : List SignalInfo) (h : MaskInvTG tg) :
    MaskInvTG (sigtimedwaitWakeState tg tid mask ws wg) := by
  simp only [sigtimedwaitWakeState]
  have hsm : (tg.tasks.getD tid defaultThread).signalMask &&& UNBLOCKED_SIGNALS = 0 :=
    (maskInv_getD tg tid h).1
  have hA : MaskInvTG (updateTask tg tid
      (fun t => { t with realSignalMask := (tg.tasks.getD tid defaultThread).signalMask })) :=
    maskInv_updateTask tg tid _ (fun t ht => ⟨ht.1, hsm⟩) h
  have hB := maskInv_ssml _ tid ((tg.tasks.getD tid defaultThread).signalMask &&& mask) hA
  have hC' := maskInv_updateTask
    (setSignalMaskLocked (updateTask tg tid
      (fun t => { t with realSignalMask := (tg.tasks.getD tid defaultThread).signalMask }))
      tid ((tg.tasks.getD tid defaultThread).signalMask &&& mask))
    tid (fun t => { t with pendingSignals := ws })
    (fun t2 ht2 => ⟨ht2.1, ht2.2⟩) hB
  have hC : MaskInvTG { updateTask (setSignalMaskLocked (updateTask tg tid
      (fun t => { t with realSignalMask := (tg.tasks.getD tid defaultThread).signalMask }))
      tid ((tg.tasks.getD tid defaultThread).signalMask &&& mask)) tid
      (fun t => { t with pendingSignals := ws }) with pendingSignals := wg } := hC'
  exact maskInv_updateTask _ tid _ (fun t ht => ⟨ht.1, Nat.zero_and _⟩)
    (maskInv_ssml _ tid _ hC)

theorem maskInv_applyMaskOp (tg : ThreadGroupState) (op : MaskOp) (h : MaskInvTG tg) :
    MaskInvTG (applyMaskOp tg op) := by
  cases op with
  | setMask tid m => exact maskInv_ssml tg tid m h
  | handlerEntry tid act noDefer sig =>
    exact maskInv_ssml tg tid _ h
  | sigreturn tid oldmask =>
    simp only [applyMaskOp, signalReturnMaskRestore]
    split
    · exact maskInv_updateTask _ tid _ (fun t ht => ⟨ht.1, ht.2⟩)
        (maskInv_ssml tg tid _ h)
    · exact maskInv_ssml tg tid _ h
  | sigwait tid set timeout ws wg we =>
    simp only [applyMaskOp, Sigtimedwait]
    rcases hd1 : dequeueSignalLocked tg tid (compl64 (set &&& compl64 UNBLOCKED_SIGNALS))
      with ⟨o1, tg1⟩
    cases o1 with
    | some si1 =>
      have := maskInv_dequeue tg tid (compl64 (set &&& compl64 UNBLOCKED_SIGNALS)) h
      rw [hd1] at this
      exact this
    | none =>
      by_cases ht : timeout = 0
      · simp only [ht, if_true]
        exact h
      · simp only [ht, if_false]
        rw [sigtimedwaitFinish_snd]
        exact maskInv_dequeue _ tid _ (maskInv_wakeState tg tid _ ws wg h)

/-- C4: SIGKILL and SIGSTOP are never present in any thread signal mask:
every mask-setting operation (setSignalMaskLocked / SetSignalMask, the
handler-entry mask update of deliverSignalToHandler, the mask restore of
SignalReturn, the temporary narrowing and restore inside Sigtimedwait)
strips both signals, so starting from a group whose masks exclude them the
invariant holds after any sequence of these operations. -/
theorem C4_mask_discipline (ops : List MaskOp) (tg : ThreadGroupState)
    (h : MaskInvTG tg) :
    MaskInvTG (ops.foldl applyMaskOp tg) ∧
    ∀ t ∈ (ops.foldl applyMaskOp tg).tasks,
      Nat.testBit t.signalMask (Signal.SIGKILL - 1).toNat = false ∧
      Nat.testBit t.signalMask (Signal.SIGSTOP - 1).toNat = false := by
  have hinv : MaskInvTG (ops.foldl applyMaskOp tg) := by
    induction ops generalizing tg with
    | nil => exact h
    | cons op rest ih =>
      simp only [List.foldl_cons]
      exact ih _ (maskInv_applyMaskOp tg op h)
  refine ⟨hinv, ?_⟩
  intro t ht
  have h1 := (hinv t ht).1
  constructor
  · have h8 := congrArg (fun n => Nat.testBit n 8) h1
    simp only [Nat.testBit_land, Nat.zero_testBit] at h8
    rw [show Nat.testBit UNBLOCKED_SIGNALS 8 = true from by decide] at h8
    rw [show ((Signal.SIGKILL - 1).toNat) = 8 from by decide]
    simpa using h8
  · have h18 := congrArg (fun n => Nat.testBit n 18) h1
    simp only [Nat.testBit_land, Nat.zero_testBit] at h18
    rw [show Nat.testBit UNBLOCKED_SIGNALS 18 = true from by decide] at h18
    rw [show ((Signal.SIGSTOP - 1).toNat) = 18 from by decide]
    simpa using h18

/-- Witness for C4 at a concrete one-thread group with empty masks and a
concrete operation sequence exercising all four operations (the requested
masks deliberately include the SIGKILL and SIGSTOP bits 8 and 18). -/
theorem C4_mask_discipline_witness :
    MaskInvTG (ThreadGroupState.mk [] [] false 0 0 false false false false false false 0
      [ThreadState.mk TaskExitState.TaskExitNone 0 0 [] none false false false false]) ∧
    (MaskInvTG ([MaskOp.setMask 0 (2 ^ 8 + 2 ^ 18 + 2 ^ 3),
        MaskOp.handlerEntry 0 (SigAct.mk 5 (2 ^ 8)) false 10,
        MaskOp.sigreturn 0 (2 ^ 18 + 2 ^ 2),
        MaskOp.sigwait 0 4 3 [] [] 110].foldl applyMaskOp
        (ThreadGroupState.mk [] [] false 0 0 false false false false false false 0
          [ThreadState.mk TaskExitState.TaskExitNone 0 0 [] none false false false
            false])) ∧
      ∀ t ∈ ([MaskOp.setMask 0 (2 ^ 8 + 2 ^ 18 + 2 ^ 3),
        MaskOp.handlerEntry 0 (SigAct.mk 5 (2 ^ 8)) false 10,
        MaskOp.sigreturn 0 (2 ^ 18 + 2 ^ 2),
        MaskOp.sigwait 0 4 3 [] [] 110].foldl applyMaskOp
        (ThreadGroupState.mk [] [] false 0 0 false false false false false false 0
          [ThreadState.mk TaskExitState.TaskExitNone 0 0 [] none false false false
            false])).tasks,
        Nat.testBit t.signalMask (Signal.SIGKILL - 1).toNat = false ∧
        Nat.testBit t.signalMask (Signal.SIGSTOP - 1).toNat = false) :=
  ⟨by decide,
    C4_mask_discipline
      [MaskOp.setMask 0 (2 ^ 8 + 2 ^ 18 + 2 ^ 3),
        MaskOp.handlerEntry 0 (SigAct.mk 5 (2 ^ 8)) false 10,
        MaskOp.sigreturn 0 (2 ^ 18 + 2 ^ 2),
        MaskOp.sigwait 0 4 3 [] [] 110]
      (ThreadGroupState.mk [] [] false 0 0 false false false false false false 0
        [ThreadState.mk TaskExitState.TaskExitNone 0 0 [] none false false false false])
      (by decide)⟩

/-- QSub tg1 tg: tg1 differs from tg only by interrupt flags, group-stop or
exit bookkeeping, and by having removed some queued signals; the lengths,
the action map, both masks of every task and the queue memberships are
related. Signal side effects always produce a QSub-state. -/
def QSub (tg1 tg : ThreadGroupState) : Prop :=
  tg1.tasks.length = tg.tasks.length ∧
  tg1.actions = tg.actions ∧
  (∀ si ∈ tg1.pendingSignals, si ∈ tg.pendingSignals) ∧
  (∀ j, j < tg.tasks.length →
    (tg1.tasks.getD j defaultThread).signalMask
      = (tg.tasks.getD j defaultThread).signalMask ∧
    (tg1.tasks.getD j defaultThread).realSignalMask
      = (tg.tasks.getD j defaultThread).realSignalMask ∧
    (tg1.tasks.getD j defaultThread).exitState
      = (tg.tasks.getD j defaultThread).exitState ∧
    (∀ si ∈ (tg1.tasks.getD j defaultThread).pendingSignals,
      si ∈ (tg.tasks.getD j defaultThread).pendingSignals))

theorem QSub_refl (tg : ThreadGroupState) : QSub tg tg :=
  ⟨rfl, rfl, fun _ h => h, fun _ _ => ⟨rfl, rfl, rfl, fun _ h => h⟩⟩

theorem QSub_trans {tg2 tg1 tg : ThreadGroupState} (h2 : QSub tg2 tg1) (h1 : QSub tg1 tg) :
    QSub tg2 tg := by
  obtain ⟨hl2, ha2, hg2, ht2⟩ := h2
  obtain ⟨hl1, ha1, hg1, ht1⟩ := h1
  refine ⟨hl2.trans hl1, ha2.trans ha1, fun si h => hg1 si (hg2 si h), ?_⟩
  intro j hj
  have hj1 : j < tg1.tasks.length := by rw [hl1]; exact hj
  obtain ⟨a2, b2, c2, d2⟩ := ht2 j hj1
  obtain ⟨a1, b1, c1, d1⟩ := ht1 j hj
  exact ⟨a2.trans a1, b2.trans b1, c2.trans c1, fun si h => d1 si (d2 si h)⟩

theorem getD_map_lt (F : ThreadState → ThreadState) (l : List ThreadState) (j : Nat)
    (hj : j < l.length) :
    (l.map F).getD j defaultThread = F (l.getD j defaultThread) := by
  rw [List.getD_eq_getElem _ _ (by simpa using hj), List.getD_eq_getElem _ _ hj,
    List.getElem_map]

theorem QSub_mapTasks (tg : ThreadGroupState) (F : ThreadState → ThreadState)
    (hmask : ∀ t, (F t).signalMask = t.signalMask)
    (hreal : ∀ t, (F t).realSignalMask = t.realSignalMask)
    (hexit : ∀ t, (F t).exitState = t.exitState)
    (hq : ∀ t, ∀ si ∈ (F t).pendingSignals, si ∈ t.pendingSignals) :
    QSub { tg with tasks := tg.tasks.map F } tg := by
  refine ⟨by simp, rfl, fun _ h => h, ?_⟩
  intro j hj
  have hg : ({ tg with tasks := tg.tasks.map F } : ThreadGroupState).tasks.getD j
      defaultThread = F (tg.tasks.getD j defaultThread) := getD_map_lt F tg.tasks j hj
  rw [hg]
  exact ⟨hmask _, hreal _, hexit _, hq _⟩

theorem QSub_discard (tg : ThreadGroupState) (sig : Int) :
    QSub (discardSpecificLocked tg sig) tg := by
  unfold discardSpecificLocked
  have h1 := QSub_mapTasks
    { tg with pendingSignals := discardQueue tg.pendingSignals sig }
    (fun t => { t with pendingSignals := discardQueue t.pendingSignals sig })
    (fun t => rfl) (fun t => rfl) (fun t => rfl)
    (fun t si h => List.mem_of_mem_filter h)
  refine QSub_trans h1 ?_
  refine ⟨rfl, rfl, fun si h => List.mem_of_mem_filter h, ?_⟩
  intro j hj
  exact ⟨rfl, rfl, rfl, fun _ h => h⟩

theorem foldl_if_rel {α : Type _} (R : α → α → Prop) (set : Nat) (step : α → Int → α)
    (hrefl : ∀ a, R a a) (htrans : ∀ a b c, R a b → R b c → R a c)
    (hstep : ∀ a s, R (step a s) a) (l : List Nat) (init : α) :
    R (l.foldl (fun a i => if Nat.testBit set i then step a (Int.ofNat (i + 1)) else a) init)
      init := by
  induction l generalizing init with
  | nil => exact hrefl init
  | cons x xs ih =>
    simp only [List.foldl_cons]
    by_cases hx : Nat.testBit set x
    · rw [if_pos hx]
      exact htrans _ _ _ (ih _) (hstep init _)
    · rw [if_neg hx]
      exact ih init

theorem QSub_endGroupStop (tg : ThreadGroupState) (b : Bool) :
    QSub (endGroupStopLocked tg b) tg := by
  have hfold : QSub (forEachSignal STOP_SIGNALS
      (fun g sig => discardSpecificLocked g sig) tg) tg :=
    foldl_if_rel QSub STOP_SIGNALS _ QSub_refl (fun _ _ _ => QSub_trans) QSub_discard
      (List.range 64) tg
  simp only [endGroupStopLocked]
  split
  · exact hfold
  · refine QSub_trans ?_ hfold
    set tg1 := forEachSignal STOP_SIGNALS (fun g sig => discardSpecificLocked g sig) tg
      with htg1
    have hmapQ := QSub_mapTasks tg1
      (fun t =>
        let t1 := { t with groupStopPending := true }
        if t1.stop = some TaskStopType.GROUPSTOP then endInternalStopLocked t1 else t1)
      (fun t => by simp only [endInternalStopLocked]; split <;> rfl)
      (fun t => by simp only [endInternalStopLocked]; split <;> rfl)
      (fun t => by simp only [endInternalStopLocked]; split <;> rfl)
      (fun t si h => by
        simp only [endInternalStopLocked] at h
        split at h <;> exact h)
    refine QSub_trans ?_ hmapQ
    constructor
    · split <;> rfl
    constructor
    · split <;> rfl
    constructor
    · split <;> exact fun _ h => h
    · intro j hj
      refine ⟨?_, ?_, ?_, ?_⟩ <;> split <;> first | rfl | exact fun _ h => h

theorem QSub_applySideEffects (tg : ThreadGroupState) (sig : Int) :
    QSub (applySignalSideEffectsLocked tg sig) tg := by
  unfold applySignalSideEffectsLocked
  by_cases h1 : sigBit sig &&& STOP_SIGNALS ≠ 0
  · rw [if_pos h1]
    exact QSub_discard tg Signal.SIGCONT
  · rw [if_neg h1]
    by_cases h2 : sig = Signal.SIGCONT
    · rw [if_pos h2]
      exact QSub_endGroupStop tg true
    · rw [if_neg h2]
      by_cases h3 : sig = Signal.SIGKILL
      · rw [if_pos h3]
        have hmap := QSub_mapTasks
          (if tg.exiting = false then
            { tg with exiting := true, exitStatusSigno := Signal.SIGKILL } else tg)
          killLocked (fun t => rfl) (fun t => rfl) (fun t => rfl) (fun t si h => h)
        refine QSub_trans hmap ?_
        by_cases h4 : tg.exiting = false
        · rw [if_pos h4]
          exact ⟨rfl, rfl, fun _ h => h, fun j hj => ⟨rfl, rfl, rfl, fun _ h => h⟩⟩
        · rw [if_neg h4]
          exact QSub_refl tg
      · rw [if_neg h3]
        exact QSub_refl tg

/-- ISame tg1 tg: the two states have the same tasks with the same
pending-interrupt flags. -/
def ISame (tg1 tg : ThreadGroupState) : Prop :=
  tg1.tasks.length = tg.tasks.length ∧
  ∀ j, j < tg.tasks.length →
    (tg1.tasks.getD j defaultThread).interrupted
      = (tg.tasks.getD j defaultThread).interrupted

theorem ISame_refl (tg : ThreadGroupState) : ISame tg tg := ⟨rfl, fun _ _ => rfl⟩

theorem ISame_trans {tg2 tg1 tg : ThreadGroupState} (h2 : ISame tg2 tg1)
    (h1 : ISame tg1 tg) : ISame tg2 tg := by
  refine ⟨h2.1.trans h1.1, fun j hj => ?_⟩
  have hj1 : j < tg1.tasks.length := by rw [h1.1]; exact hj
  exact (h2.2 j hj1).trans (h1.2 j hj)

theorem ISame_mapTasks (tg : ThreadGroupState) (F : ThreadState → ThreadState)
    (extra : ThreadGroupState → ThreadGroupState)
    (hextra : ∀ g, (extra g).tasks = g.tasks)
    (hint : ∀ t, (F t).interrupted = t.interrupted) :
    ISame (extra { tg with tasks := tg.tasks.map F }) tg := by
  constructor
  · rw [hextra]
    simp
  · intro j hj
    rw [hextra]
    show ((tg.tasks.map F).getD j defaultThread).interrupted = _
    rw [getD_map_lt F tg.tasks j hj, hint]

theorem ISame_discard (tg : ThreadGroupState) (sig : Int) :
    ISame (discardSpecificLocked tg sig) tg :=
  ISame_mapTasks tg _ id (fun _ => rfl) (fun _ => rfl)

theorem ISame_endGroupStop (tg : ThreadGroupState) (b : Bool) :
    ISame (endGroupStopLocked tg b) tg := by
  have hfold : ISame (forEachSignal STOP_SIGNALS
      (fun g sig => discardSpecificLocked g sig) tg) tg :=
    foldl_if_rel ISame STOP_SIGNALS _ ISame_refl (fun _ _ _ => ISame_trans) ISame_discard
      (List.range 64) tg
  simp only [endGroupStopLocked]
  split
  · exact hfold
  · refine ISame_trans ?_ hfold
    set tg1 := forEachSignal STOP_SIGNALS (fun g sig => discardSpecificLocked g sig) tg
      with htg1
    have hmapI := ISame_mapTasks tg1
      (fun t =>
        let t1 := { t with groupStopPending := true }
        if t1.stop = some TaskStopType.GROUPSTOP then endInternalStopLocked t1 else t1)
      id (fun _ => rfl)
      (fun t => by simp only [endInternalStopLocked]; split <;> rfl)
    refine ISame_trans ?_ hmapI
    constructor
    · split <;> rfl
    · intro j hj
      split <;> rfl

theorem ISame_applySideEffects (tg : ThreadGroupState) (sig : Int)
    (h : sig ≠ Signal.SIGKILL) :
    ISame (applySignalSideEffectsLocked tg sig) tg := by
  unfold applySignalSideEffectsLocked
  by_cases h1 : sigBit sig &&& STOP_SIGNALS ≠ 0
  · rw [if_pos h1]
    exact ISame_discard tg Signal.SIGCONT
  · rw [if_neg h1]
    by_cases h2 : sig = Signal.SIGCONT
    · rw [if_pos h2]
      exact ISame_endGroupStop tg true
    · rw [if_neg h2]
      rw [if_neg h]
      exact ISame_refl tg

theorem GetAct_eq {tg1 tg : ThreadGroupState} (h : tg1.actions = tg.actions) (sig : Int) :
    GetAct tg1 sig = GetAct tg sig := by
  unfold GetAct
  rw [h]

theorem pendingSet_testBit_false (q : List SignalInfo) (sig : Int)
    (hs1 : 1 ≤ sig)
    (hv : ∀ si ∈ q, 1 ≤ si.Signo ∧ si.Signo ≤ 64)
    (hnot : ∀ si ∈ q, si.Signo ≠ sig) :
    Nat.testBit (pendingSet q) (sig - 1).toNat = false := by
  induction q with
  | nil => simp [pendingSet]
  | cons x rest ih =>
    have hx := hv x (List.mem_cons_self x rest)
    have hxne := hnot x (List.mem_cons_self x rest)
    have hstep : pendingSet (x :: rest) = sigBit x.Signo ||| pendingSet rest := rfl
    rw [hstep, Nat.testBit_lor]
    have h1 : Nat.testBit (sigBit x.Signo) (sig - 1).toNat = false := by
      unfold sigBit
      rw [Nat.testBit_two_pow]
      simp only [decide_eq_false_iff_not]
      intro hcontra
      apply hxne
      omega
    rw [h1, ih (fun si h => hv si (List.mem_cons_of_mem x h))
      (fun si h => hnot si (List.mem_cons_of_mem x h))]
    rfl

theorem enque_fresh (q : List SignalInfo) (info : SignalInfo)
    (hfresh : ∀ si ∈ q, si.Signo ≠ info.Signo) :
    enque q info = (q ++ [info], true) := by
  unfold enque
  have hany : q.any (fun x => x.Signo = info.Signo) = false := by
    rw [List.any_eq_false]
    intro si hsi
    simpa using hfresh si hsi
  have hfilter : (q.filter (fun x => x.Signo = info.Signo)).length = 0 := by
    rw [List.length_eq_zero, List.filter_eq_nil]
    intro si hsi
    simpa using hfresh si hsi
  rw [if_neg (by rw [hany]; intro hc; exact Bool.false_ne_true hc.2)]
  rw [if_neg (by rw [hfilter]; intro hc; omega)]

theorem send_discard_case (tg : ThreadGroupState) (tid : Nat) (info : SignalInfo)
    (group timer : Bool)
    (hlive : ¬ (tg.tasks.getD tid defaultThread).exitState = TaskExitState.TaskExitDead)
    (hne0 : ¬ info.Signo = 0)
    (hval : Signal.IsValid info.Signo)
    (hD : sigBit info.Signo &&&
        ((applySignalSideEffectsLocked tg info.Signo).tasks.getD tid
          defaultThread).signalMask = 0 ∧
      sigBit info.Signo &&&
        ((applySignalSideEffectsLocked tg info.Signo).tasks.getD tid
          defaultThread).realSignalMask = 0 ∧
      ComputeAction info.Signo
        (GetAct (applySignalSideEffectsLocked tg info.Signo) info.Signo)
        = some SignalAction.IGNORE) :
    sendSignalTimerLocked tg tid info group timer
      = ⟨Except.ok (), applySignalSideEffectsLocked tg info.Signo, timer, none⟩ := by
  simp only [sendSignalTimerLocked]
  rw [if_neg hlive, if_neg hne0, if_neg (not_not_intro hval), if_pos hD]

theorem sendSignalNotify_result (tg2 : ThreadGroupState) (tid : Nat) (sig : Int)
    (group : Bool) : (sendSignalNotify tg2 tid sig group).result = Except.ok () := by
  unfold sendSignalNotify
  split
  · rfl
  · split
    · cases findSignalReceiverLocked tg2 sig <;> rfl
    · rfl

theorem sendSignalNotify_groupQueue (tg2 : ThreadGroupState) (tid : Nat) (sig : Int)
    (group : Bool) :
    (sendSignalNotify tg2 tid sig group).tg.pendingSignals = tg2.pendingSignals := by
  unfold sendSignalNotify
  split
  · rfl
  · split
    · cases findSignalReceiverLocked tg2 sig <;> rfl
    · rfl

theorem sendSignalNotify_selfQueue (tg2 : ThreadGroupState) (tid : Nat) (sig : Int)
    (group : Bool) (hlen : tid < tg2.tasks.length) :
    ((sendSignalNotify tg2 tid sig group).tg.tasks.getD tid defaultThread).pendingSignals
      = (tg2.tasks.getD tid defaultThread).pendingSignals := by
  unfold sendSignalNotify
  split
  · rw [updateTask_getD_self _ _ _ hlen]
  · split
    · cases h : findSignalReceiverLocked tg2 sig with
      | some j =>
        by_cases hj : tid = j
        · subst hj
          rw [updateTask_getD_self _ _ _ hlen]
        · rw [updateTask_getD_other _ _ _ _ hj]
      | none => rfl
    · rfl

theorem send_enqueued_case (tg : ThreadGroupState) (tid : Nat) (info : SignalInfo)
    (group timer : Bool)
    (hlen : tid < tg.tasks.length)
    (hlive : ¬ (tg.tasks.getD tid defaultThread).exitState = TaskExitState.TaskExitDead)
    (hne0 : ¬ info.Signo = 0)
    (hval : Signal.IsValid info.Signo)
    (hnd : ¬ (sigBit info.Signo &&&
        ((applySignalSideEffectsLocked tg info.Signo).tasks.getD tid
          defaultThread).signalMask = 0 ∧
      sigBit info.Signo &&&
        ((applySignalSideEffectsLocked tg info.Signo).tasks.getD tid
          defaultThread).realSignalMask = 0 ∧
      ComputeAction info.Signo
        (GetAct (applySignalSideEffectsLocked tg info.Signo) info.Signo)
        = some SignalAction.IGNORE))
    (hfresh1' : ∀ si ∈ ((applySignalSideEffectsLocked tg info.Signo).tasks.getD tid
      defaultThread).pendingSignals, si.Signo ≠ info.Signo)
    (hfresh2' : ∀ si ∈ (applySignalSideEffectsLocked tg info.Signo).pendingSignals,
      si.Signo ≠ info.Signo) :
    (sendSignalTimerLocked tg tid info group timer).result = Except.ok () ∧
    (group = true →
      info ∈ (sendSignalTimerLocked tg tid info group timer).tg.pendingSignals) ∧
    (group = false →
      info ∈ ((sendSignalTimerLocked tg tid info group timer).tg.tasks.getD tid
        defaultThread).pendingSignals) := by
  have hlen1 : tid < (applySignalSideEffectsLocked tg info.Signo).tasks.length := by
    rw [(QSub_applySideEffects tg info.Signo).1]
    exact hlen
  cases group with
  | false =>
    simp only [sendSignalTimerLocked]
    rw [if_neg hlive, if_neg hne0, if_neg (not_not_intro hval), if_neg hnd]
    rw [if_neg Bool.false_ne_true, if_neg Bool.false_ne_true]
    rw [enque_fresh _ _ hfresh1']
    rw [if_neg (by simp)]
    refine ⟨sendSignalNotify_result _ _ _ _, fun hg => absurd hg Bool.false_ne_true,
      fun _ => ?_⟩
    rw [sendSignalNotify_selfQueue _ _ _ _ (by rw [updateTask_length]; exact hlen1)]
    rw [updateTask_getD_self _ _ _ hlen1]
    simp
  | true =>
    simp only [sendSignalTimerLocked]
    rw [if_neg hlive, if_neg hne0, if_neg (not_not_intro hval), if_neg hnd]
    simp only [if_true]
    rw [enque_fresh _ _ hfresh2']
    rw [if_neg (by simp)]
    refine ⟨sendSignalNotify_result _ _ _ _, fun _ => ?_,
      fun hg => absurd hg (by simp)⟩
    rw [sendSignalNotify_groupQueue]
    simp

theorem ComputeAction_sigkill (act : SigAct) :
    ComputeAction Signal.SIGKILL act = some SignalAction.TERM := rfl

/-- C2: a valid nonzero signal sent to a live thread (whose queues do not
already hold that signal) is discarded without being enqueued exactly when
ComputeAction of the current thread-group action is IGNORE and the signal
is blocked in neither signalMask nor realSignalMask; a discarded send
rejects an attached timer, returns Ok, interrupts no thread, and
PendingSignals() afterwards does not contain the signal. -/
theorem C2_send_ignored_discard (tg : ThreadGroupState) (tid : Nat) (info : SignalInfo)
    (group timer : Bool)
    (hlen : tid < tg.tasks.length)
    (hlive : ¬ (tg.tasks.getD tid defaultThread).exitState = TaskExitState.TaskExitDead)
    (hval : Signal.IsValid info.Signo)
    (hvq1 : ∀ si ∈ (tg.tasks.getD tid defaultThread).pendingSignals,
      1 ≤ si.Signo ∧ si.Signo ≤ 64)
    (hvq2 : ∀ si ∈ tg.pendingSignals, 1 ≤ si.Signo ∧ si.Signo ≤ 64)
    (hfresh1 : ∀ si ∈ (tg.tasks.getD tid defaultThread).pendingSignals,
      si.Signo ≠ info.Signo)
    (hfresh2 : ∀ si ∈ tg.pendingSignals, si.Signo ≠ info.Signo) :
    (((sendSignalTimerLocked tg tid info group timer).result = Except.ok () ∧
      (∀ si ∈ ((sendSignalTimerLocked tg tid info group timer).tg.tasks.getD tid
        defaultThread).pendingSignals, si.Signo ≠ info.Signo) ∧
      (∀ si ∈ (sendSignalTimerLocked tg tid info group timer).tg.pendingSignals,
        si.Signo ≠ info.Signo)) ↔
      (ComputeAction info.Signo (GetAct tg info.Signo) = some SignalAction.IGNORE ∧
        sigBit info.Signo &&& (tg.tasks.getD tid defaultThread).signalMask = 0 ∧
        sigBit info.Signo &&& (tg.tasks.getD tid defaultThread).realSignalMask = 0)) ∧
    ((ComputeAction info.Signo (GetAct tg info.Signo) = some SignalAction.IGNORE ∧
        sigBit info.Signo &&& (tg.tasks.getD tid defaultThread).signalMask = 0 ∧
        sigBit info.Signo &&& (tg.tasks.getD tid defaultThread).realSignalMask = 0) →
      (sendSignalTimerLocked tg tid info group timer).result = Except.ok () ∧
      (sendSignalTimerLocked tg tid info group timer).timerRejected = timer ∧
      (sendSignalTimerLocked tg tid info group timer).notified = none ∧
      (∀ j, j < tg.tasks.length →
        ((sendSignalTimerLocked tg tid info group timer).tg.tasks.getD j
          defaultThread).interrupted = (tg.tasks.getD j defaultThread).interrupted) ∧
      Nat.testBit (PendingSignals (sendSignalTimerLocked tg tid info group timer).tg tid)
        (info.Signo - 1).toNat = false) := by
  have hQ := QSub_applySideEffects tg info.Signo
  have hne0 : ¬ info.Signo = 0 := by
    obtain ⟨h1, _⟩ := hval
    omega
  have hmaskEq := (hQ.2.2.2 tid hlen).1
  have hrealEq := (hQ.2.2.2 tid hlen).2.1
  have hactEq := GetAct_eq hQ.2.1 info.Signo
  have hsub1 := (hQ.2.2.2 tid hlen).2.2.2
  have hsub2 := hQ.2.2.1
  have hfresh1' : ∀ si ∈ ((applySignalSideEffectsLocked tg info.Signo).tasks.getD tid
      defaultThread).pendingSignals, si.Signo ≠ info.Signo :=
    fun si h => hfresh1 si (hsub1 si h)
  have hfresh2' : ∀ si ∈ (applySignalSideEffectsLocked tg info.Signo).pendingSignals,
      si.Signo ≠ info.Signo := fun si h => hfresh2 si (hsub2 si h)
  have hvq1' : ∀ si ∈ ((applySignalSideEffectsLocked tg info.Signo).tasks.getD tid
      defaultThread).pendingSignals, 1 ≤ si.Signo ∧ si.Signo ≤ 64 :=
    fun si h => hvq1 si (hsub1 si h)
  have hvq2' : ∀ si ∈ (applySignalSideEffectsLocked tg info.Signo).pendingSignals,
      1 ≤ si.Signo ∧ si.Signo ≤ 64 := fun si h => hvq2 si (hsub2 si h)
  have hDiff : (sigBit info.Signo &&&
      ((applySignalSideEffectsLocked tg info.Signo).tasks.getD tid
        defaultThread).signalMask = 0 ∧
      sigBit info.Signo &&&
        ((applySignalSideEffectsLocked tg info.Signo).tasks.getD tid
          defaultThread).realSignalMask = 0 ∧
      ComputeAction info.Signo
        (GetAct (applySignalSideEffectsLocked tg info.Signo) info.Signo)
        = some SignalAction.IGNORE) ↔
      (ComputeAction info.Signo (GetAct tg info.Signo) = some SignalAction.IGNORE ∧
        sigBit info.Signo &&& (tg.tasks.getD tid defaultThread).signalMask = 0 ∧
        sigBit info.Signo &&& (tg.tasks.getD tid defaultThread).realSignalMask = 0) := by
    constructor
    · rintro ⟨a, b, c⟩
      rw [hmaskEq] at a
      rw [hrealEq] at b
      rw [hactEq] at c
      exact ⟨c, a, b⟩
    · rintro ⟨c, a, b⟩
      rw [← hmaskEq] at a
      rw [← hrealEq] at b
      rw [← hactEq] at c
      exact ⟨a, b, c⟩
  constructor
  · constructor
    · rintro ⟨hok, hq1, hq2⟩
      by_contra hnd'
      have hnd := fun hc => hnd' (hDiff.mp hc)
      have henq := send_enqueued_case tg tid info group timer hlen hlive hne0 hval hnd
        hfresh1' hfresh2'
      cases group with
      | true => exact hq2 info (henq.2.1 rfl) rfl
      | false => exact hq1 info (henq.2.2 rfl) rfl
    · intro hc
      have heq := send_discard_case tg tid info group timer hlive hne0 hval (hDiff.mpr hc)
      rw [heq]
      exact ⟨rfl, hfresh1', hfresh2'⟩
  · intro hc
    have heq := send_discard_case tg tid info group timer hlive hne0 hval (hDiff.mpr hc)
    rw [heq]
    have hsig9 : info.Signo ≠ Signal.SIGKILL := by
      intro h9
      rw [h9, ComputeAction_sigkill] at hc
      exact absurd hc.1 (by decide)
    refine ⟨rfl, rfl, rfl, ?_, ?_⟩
    · intro j hj
      exact (ISame_applySideEffects tg info.Signo hsig9).2 j hj
    · unfold PendingSignals
      rw [Nat.testBit_lor]
      rw [pendingSet_testBit_false _ _ hval.1 hvq1' hfresh1']
      rw [pendingSet_testBit_false _ _ hval.1 hvq2' hfresh2']
      rfl

/-- Witness for C2 at the spec scenario: one live thread, SIGUSR1 (10)
action set to SIG_IGN, mask not blocking it; SendSignal returns Ok, the
timer is rejected, no thread is notified, and PendingSignals() excludes the
signal. -/
theorem C2_send_ignored_discard_witness :
    (ComputeAction (SignalInfo.mk 10).Signo (GetAct (ThreadGroupState.mk [] [((10 : Int), SigAct.mk 1 0)] false 0 0 false false false false false false 0 [ThreadState.mk TaskExitState.TaskExitNone 0 0 [] none false false false false]) (SignalInfo.mk 10).Signo)
        = some SignalAction.IGNORE ∧
      sigBit (SignalInfo.mk 10).Signo &&&
        ((ThreadGroupState.mk [] [((10 : Int), SigAct.mk 1 0)] false 0 0 false false false false false false 0 [ThreadState.mk TaskExitState.TaskExitNone 0 0 [] none false false false false]).tasks.getD 0 defaultThread).signalMask = 0 ∧
      sigBit (SignalInfo.mk 10).Signo &&&
        ((ThreadGroupState.mk [] [((10 : Int), SigAct.mk 1 0)] false 0 0 false false false false false false 0 [ThreadState.mk TaskExitState.TaskExitNone 0 0 [] none false false false false]).tasks.getD 0 defaultThread).realSignalMask = 0) ∧
    (sendSignalTimerLocked (ThreadGroupState.mk [] [((10 : Int), SigAct.mk 1 0)] false 0 0 false false false false false false 0 [ThreadState.mk TaskExitState.TaskExitNone 0 0 [] none false false false false]) 0 (SignalInfo.mk 10) false true).result = Except.ok () ∧
    (sendSignalTimerLocked (ThreadGroupState.mk [] [((10 : Int), SigAct.mk 1 0)] false 0 0 false false false false false false 0 [ThreadState.mk TaskExitState.TaskExitNone 0 0 [] none false false false false]) 0 (SignalInfo.mk 10) false true).timerRejected = true ∧
    (sendSignalTimerLocked (ThreadGroupState.mk [] [((10 : Int), SigAct.mk 1 0)] false 0 0 false false false false false false 0 [ThreadState.mk TaskExitState.TaskExitNone 0 0 [] none false false false false]) 0 (SignalInfo.mk 10) false true).notified = none ∧
    Nat.testBit (PendingSignals (sendSignalTimerLocked (ThreadGroupState.mk [] [((10 : Int), SigAct.mk 1 0)] false 0 0 false false false false false false 0 [ThreadState.mk TaskExitState.TaskExitNone 0 0 [] none false false false false]) 0 (SignalInfo.mk 10) false true).tg 0) ((SignalInfo.mk 10).Signo - 1).toNat
      = false := by
  have h := (C2_send_ignored_discard (ThreadGroupState.mk [] [((10 : Int), SigAct.mk 1 0)] false 0 0 false false false false false false 0 [ThreadState.mk TaskExitState.TaskExitNone 0 0 [] none false false false false]) 0 (SignalInfo.mk 10) false true
    (by decide) (by decide) (by decide) (by decide) (by decide) (by decide)
    (by decide)).2 (by decide)
  exact ⟨by decide, h.1, h.2.1, h.2.2.1, h.2.2.2.2⟩

theorem enque_not_queued_fst (q : List SignalInfo) (i : SignalInfo)
    (h : (enque q i).2 = false) : (enque q i).1 = q := by
  unfold enque at h
  unfold enque
  split at h
  · next hc => rw [if_pos hc]
  · next hc =>
    rw [if_neg hc]
    split at h
    · next hc2 => rw [if_pos hc2]
    · next hc2 => exact absurd h (by simp)

/-- C3: sendSignalTimerLocked checks, in order: a dead target returns ESRCH;
signal 0 returns Ok with no state change; an invalid signal returns EINVAL;
and when the enqueue reports the signal was not queued, a real-time signal
returns EAGAIN while a standard signal rejects any attached timer and
returns Ok, the queues left as the side effects produced them. -/
theorem C3_send_error_order (tg : ThreadGroupState) (tid : Nat) (info : SignalInfo)
    (group timer : Bool) :
    ((tg.tasks.getD tid defaultThread).exitState = TaskExitState.TaskExitDead →
      sendSignalTimerLocked tg tid info group timer = ⟨Except.error (Error.SysError SysErr.ESRCH), tg, false, none⟩) ∧
    (¬ (tg.tasks.getD tid defaultThread).exitState = TaskExitState.TaskExitDead → info.Signo = 0 →
      sendSignalTimerLocked tg tid info group timer = ⟨Except.ok (), tg, false, none⟩) ∧
    (¬ (tg.tasks.getD tid defaultThread).exitState = TaskExitState.TaskExitDead → ¬ info.Signo = 0 →
      ¬ Signal.IsValid info.Signo →
      sendSignalTimerLocked tg tid info group timer = ⟨Except.error (Error.SysError SysErr.EINVAL), tg, false, none⟩) ∧
    (¬ (tg.tasks.getD tid defaultThread).exitState = TaskExitState.TaskExitDead → Signal.IsValid info.Signo →
      ¬ (sigBit info.Signo &&& ((applySignalSideEffectsLocked tg info.Signo).tasks.getD tid defaultThread).signalMask = 0 ∧
      sigBit info.Signo &&& ((applySignalSideEffectsLocked tg info.Signo).tasks.getD tid defaultThread).realSignalMask = 0 ∧
      ComputeAction info.Signo (GetAct (applySignalSideEffectsLocked tg info.Signo) info.Signo) = some SignalAction.IGNORE) →
      (enque (if group = true then (applySignalSideEffectsLocked tg info.Signo).pendingSignals else ((applySignalSideEffectsLocked tg info.Signo).tasks.getD tid defaultThread).pendingSignals) info).2 = false →
      ((Signal.IsRealtime info.Signo →
        sendSignalTimerLocked tg tid info group timer = ⟨Except.error (Error.SysError SysErr.EAGAIN), (applySignalSideEffectsLocked tg info.Signo), false, none⟩) ∧
      (¬ Signal.IsRealtime info.Signo →
        sendSignalTimerLocked tg tid info group timer = ⟨Except.ok (), (applySignalSideEffectsLocked tg info.Signo), timer, none⟩))) := by
  refine ⟨?_, ?_, ?_, ?_⟩
  · intro hdead
    simp only [sendSignalTimerLocked]
    rw [if_pos hdead]
  · intro h1 h2
    simp only [sendSignalTimerLocked]
    rw [if_neg h1, if_pos h2]
  · intro h1 h2 h3
    simp only [sendSignalTimerLocked]
    rw [if_neg h1, if_neg h2, if_pos h3]
  · intro h1 hv hnd hnq
    have hne0 : ¬ info.Signo = 0 := by
      obtain ⟨ha, _⟩ := hv
      omega
    cases group with
    | true =>
      rw [if_pos rfl] at hnq
      have hfst := enque_not_queued_fst _ _ hnq
      constructor
      · intro hrt
        simp only [sendSignalTimerLocked]
        rw [if_neg h1, if_neg hne0, if_neg (not_not_intro hv), if_neg hnd]
        simp only [if_true]
        rw [if_pos hnq, if_pos hrt, hfst]
      · intro hrt
        simp only [sendSignalTimerLocked]
        rw [if_neg h1, if_neg hne0, if_neg (not_not_intro hv), if_neg hnd]
        simp only [if_true]
        rw [if_pos hnq, if_neg hrt, hfst]
    | false =>
      rw [if_neg Bool.false_ne_true] at hnq
      have hfst := enque_not_queued_fst _ _ hnq
      have hsame : updateTask (applySignalSideEffectsLocked tg info.Signo) tid
          (fun t => { t with pendingSignals := (enque
            ((applySignalSideEffectsLocked tg info.Signo).tasks.getD tid defaultThread).pendingSignals info).1 }) = (applySignalSideEffectsLocked tg info.Signo) := by
        unfold updateTask
        rw [hfst]
        rw [list_set_getD_self]
      constructor
      · intro hrt
        simp only [sendSignalTimerLocked]
        rw [if_neg h1, if_neg hne0, if_neg (not_not_intro hv), if_neg hnd]
        rw [if_neg Bool.false_ne_true, if_neg Bool.false_ne_true]
        rw [if_pos hnq, if_pos hrt, hsame]
      · intro hrt
        simp only [sendSignalTimerLocked]
        rw [if_neg h1, if_neg hne0, if_neg (not_not_intro hv), if_neg hnd]
        rw [if_neg Bool.false_ne_true, if_neg Bool.false_ne_true]
        rw [if_pos hnq, if_neg hrt, hsame]

set_option maxRecDepth 4096 in
/-- Witness for C3 at concrete inputs: a dead target gives ESRCH; signal 0
gives Ok with the state unchanged; signal 65 gives EINVAL; a standard
signal already pending gives Ok with the timer rejected; a real-time signal
whose queue is full gives EAGAIN. -/
theorem C3_send_error_order_witness :
    (sendSignalTimerLocked (ThreadGroupState.mk [] [] false 0 0 false false false false false false 0 [ThreadState.mk TaskExitState.TaskExitDead 0 0 [] none false false false false]) 0 (SignalInfo.mk 10) false true
      = ⟨Except.error (Error.SysError SysErr.ESRCH), (ThreadGroupState.mk [] [] false 0 0 false false false false false false 0 [ThreadState.mk TaskExitState.TaskExitDead 0 0 [] none false false false false]), false, none⟩) ∧
    (sendSignalTimerLocked (ThreadGroupState.mk [] [] false 0 0 false false false false false false 0 [ThreadState.mk TaskExitState.TaskExitNone 0 0 [] none false false false false]) 0 (SignalInfo.mk 0) false true
      = ⟨Except.ok (), (ThreadGroupState.mk [] [] false 0 0 false false false false false false 0 [ThreadState.mk TaskExitState.TaskExitNone 0 0 [] none false false false false]), false, none⟩) ∧
    (sendSignalTimerLocked (ThreadGroupState.mk [] [] false 0 0 false false false false false false 0 [ThreadState.mk TaskExitState.TaskExitNone 0 0 [] none false false false false]) 0 (SignalInfo.mk 65) false true
      = ⟨Except.error (Error.SysError SysErr.EINVAL), (ThreadGroupState.mk [] [] false 0 0 false false false false false false 0 [ThreadState.mk TaskExitState.TaskExitNone 0 0 [] none false false false false]), false, none⟩) ∧
    (sendSignalTimerLocked (ThreadGroupState.mk [] [] false 0 0 false false false false false false 0 [ThreadState.mk TaskExitState.TaskExitNone 0 0 [SignalInfo.mk 10] none false false false false]) 0 (SignalInfo.mk 10) false true
      = ⟨Except.ok (),
          applySignalSideEffectsLocked (ThreadGroupState.mk [] [] false 0 0 false false false false false false 0 [ThreadState.mk TaskExitState.TaskExitNone 0 0 [SignalInfo.mk 10] none false false false false]) (SignalInfo.mk 10).Signo, true, none⟩) ∧
    (sendSignalTimerLocked (ThreadGroupState.mk [] [] false 0 0 false false false false false false 0 [ThreadState.mk TaskExitState.TaskExitNone 0 0 (List.replicate 128 (SignalInfo.mk 40)) none false false false false]) 0 (SignalInfo.mk 40) false true
      = ⟨Except.error (Error.SysError SysErr.EAGAIN),
          applySignalSideEffectsLocked (ThreadGroupState.mk [] [] false 0 0 false false false false false false 0 [ThreadState.mk TaskExitState.TaskExitNone 0 0 (List.replicate 128 (SignalInfo.mk 40)) none false false false false]) (SignalInfo.mk 40).Signo, false, none⟩) :=
  ⟨(C3_send_error_order (ThreadGroupState.mk [] [] false 0 0 false false false false false false 0 [ThreadState.mk TaskExitState.TaskExitDead 0 0 [] none false false false false]) 0 (SignalInfo.mk 10) false true).1 (by decide),
    (C3_send_error_order (ThreadGroupState.mk [] [] false 0 0 false false false false false false 0 [ThreadState.mk TaskExitState.TaskExitNone 0 0 [] none false false false false]) 0 (SignalInfo.mk 0) false true).2.1 (by decide) (by decide),
    (C3_send_error_order (ThreadGroupState.mk [] [] false 0 0 false false false false false false 0 [ThreadState.mk TaskExitState.TaskExitNone 0 0 [] none false false false false]) 0 (SignalInfo.mk 65) false true).2.2.1 (by decide)
      (by decide) (by decide),
    ((C3_send_error_order (ThreadGroupState.mk [] [] false 0 0 false false false false false false 0 [ThreadState.mk TaskExitState.TaskExitNone 0 0 [SignalInfo.mk 10] none false false false false]) 0 (SignalInfo.mk 10) false true).2.2.2 (by decide)
      (by decide) (by decide) (by decide)).2 (by decide),
    ((C3_send_error_order (ThreadGroupState.mk [] [] false 0 0 false false false false false false 0 [ThreadState.mk TaskExitState.TaskExitNone 0 0 (List.replicate 128 (SignalInfo.mk 40)) none false false false false]) 0 (SignalInfo.mk 40) false true).2.2.2 (by decide)
      (by decide) (by decide) (by decide)).1 (by decide)⟩

/- Claim C7: notifier invariant machinery. Basic facts about the fd map. -/

theorem lookupFD_cons_pos (p : Int × GuestFdInfo) (m : List (Int × GuestFdInfo)) (fd : Int)
    (h : p.1 = fd) : lookupFD (p :: m) fd = some p.2 := by
  unfold lookupFD
  rw [List.find?_cons_of_pos _ (by simp [h])]

theorem lookupFD_cons_neg (p : Int × GuestFdInfo) (m : List (Int × GuestFdInfo)) (fd : Int)
    (h : p.1 ≠ fd) : lookupFD (p :: m) fd = lookupFD m fd := by
  unfold lookupFD
  rw [List.find?_cons_of_neg _ (by simp [h])]

theorem lookupFD_mem {m : List (Int × GuestFdInfo)} {fd : Int} {fi : GuestFdInfo}
    (h : lookupFD m fd = some fi) : (fd, fi) ∈ m := by
  induction m with
  | nil => exact absurd h (by simp [lookupFD])
  | cons p t ih =>
    by_cases hp : p.1 = fd
    · rw [lookupFD_cons_pos p t fd hp] at h
      injection h with h
      have hpe : p = (fd, fi) := Prod.ext hp h
      rw [hpe]
      exact List.mem_cons_self _ _
    · rw [lookupFD_cons_neg p t fd hp] at h
      exact List.mem_cons_of_mem p (ih h)

theorem lookupFD_eq_none {m : List (Int × GuestFdInfo)} {fd : Int}
    (h : lookupFD m fd = none) : ∀ p ∈ m, p.1 ≠ fd := by
  intro p hp
  unfold lookupFD at h
  split at h
  next q hq => exact absurd h (by simp)
  next hq =>
    have := List.find?_eq_none.mp hq p hp
    simpa using this

theorem lookupFD_setFD_self {m : List (Int × GuestFdInfo)} {fd : Int} (fi : GuestFdInfo)
    (h : (lookupFD m fd).isSome) :
    lookupFD (setFD m fd fi) fd = some fi := by
  induction m with
  | nil => simp [lookupFD] at h
  | cons p t ih =>
    show lookupFD ((if p.1 = fd then (fd, fi) else p) :: setFD t fd fi) fd = some fi
    by_cases hp : p.1 = fd
    · rw [if_pos hp, lookupFD_cons_pos (fd, fi) _ fd rfl]
    · rw [if_neg hp]
      rw [lookupFD_cons_neg p t fd hp] at h
      rw [lookupFD_cons_neg _ _ fd hp]
      exact ih h

theorem setFD_keys (m : List (Int × GuestFdInfo)) (fd : Int) (fi : GuestFdInfo) :
    (setFD m fd fi).map Prod.fst = m.map Prod.fst := by
  unfold setFD
  rw [List.map_map]
  apply List.map_congr_left
  intro p _
  simp only [Function.comp]
  split
  next h => exact h.symm
  next => rfl

theorem mem_setFD {m : List (Int × GuestFdInfo)} {fd : Int} {fi : GuestFdInfo}
    {p : Int × GuestFdInfo} (h : p ∈ setFD m fd fi) :
    p = (fd, fi) ∨ (p ∈ m ∧ p.1 ≠ fd) := by
  unfold setFD at h
  obtain ⟨q, hq, hqe⟩ := List.mem_map.mp h
  by_cases h1 : q.1 = fd
  · rw [if_pos h1] at hqe
    exact Or.inl hqe.symm
  · rw [if_neg h1] at hqe
    subst hqe
    exact Or.inr ⟨hq, h1⟩

/- Entries other than fd keep the invariant after the submission of the fd
entry is removed from the ring: their submissions have a different userdata
index, by injectivity of the index over the active list. -/

theorem part4_after_remove
    (m : List (Int × GuestFdInfo)) (r : RingState) (fd : Int) (fi : GuestFdInfo) (idx : Nat)
    (hn : (r.active.map Submission.idx).Nodup)
    (hp : ∀ p ∈ m, (p.2.userdata.isSome ↔ p.2.mask ≠ 0) ∧
      ∀ i ∈ p.2.userdata.toList, Submission.mk i p.1 p.2.mask ∈ r.active)
    (hmem : (fd, fi) ∈ m) (hu : fi.userdata = some idx) :
    ∀ p ∈ m, p.1 ≠ fd → (p.2.userdata.isSome ↔ p.2.mask ≠ 0) ∧
      ∀ i ∈ p.2.userdata.toList, Submission.mk i p.1 p.2.mask ∈ (AsyncPollRemove r idx).active := by
  intro p hpm hpf
  refine ⟨(hp p hpm).1, ?_⟩
  intro i hi
  have hS : Submission.mk i p.1 p.2.mask ∈ r.active := (hp p hpm).2 i hi
  have hT : Submission.mk idx fd fi.mask ∈ r.active := by
    refine (hp _ hmem).2 idx ?_
    rw [hu]
    simp
  show Submission.mk i p.1 p.2.mask ∈ r.active.filter (fun s => s.idx ≠ idx)
  rw [List.mem_filter]
  refine ⟨hS, ?_⟩
  simp only [decide_eq_true_eq]
  intro hcontra
  subst hcontra
  have heq := List.inj_on_of_nodup_map hn hS hT rfl
  have hfd : p.1 = fd := congrArg Submission.fd heq
  exact hpf hfd

/- Installing a fresh submission for fd (AsyncPollAdd on a ring whose other
entries already satisfy the per-entry invariant) preserves NotifierInv. -/

theorem notifierInv_core_add (m : List (Int × GuestFdInfo)) (r : RingState) (fd : Int) (mask : Nat)
    (hk : (m.map Prod.fst).Nodup)
    (hn : (r.active.map Submission.idx).Nodup)
    (hb : ∀ sub ∈ r.active, sub.idx < r.nextIdx)
    (hp : ∀ p ∈ m, p.1 ≠ fd → (p.2.userdata.isSome ↔ p.2.mask ≠ 0) ∧
      ∀ i ∈ p.2.userdata.toList, Submission.mk i p.1 p.2.mask ∈ r.active)
    (hmk : mask ≠ 0) :
    NotifierInv ⟨setFD m fd ⟨mask, some (AsyncPollAdd r fd mask).1⟩, (AsyncPollAdd r fd mask).2⟩ := by
  unfold NotifierInv
  refine ⟨?_, ?_, ?_, ?_⟩
  · show ((setFD m fd ⟨mask, some r.nextIdx⟩).map Prod.fst).Nodup
    rw [setFD_keys]
    exact hk
  · show ((r.active ++ [(⟨r.nextIdx, fd, mask⟩ : Submission)]).map Submission.idx).Nodup
    rw [List.map_append, List.nodup_append]
    refine ⟨hn, by simp, ?_⟩
    intro a ha hmem2
    simp at hmem2
    subst hmem2
    obtain ⟨sub, hsub, hsubidx⟩ := List.mem_map.mp ha
    have := hb sub hsub
    omega
  · show ∀ sub ∈ r.active ++ [(⟨r.nextIdx, fd, mask⟩ : Submission)], sub.idx < r.nextIdx + 1
    intro sub hsub
    rcases List.mem_append.mp hsub with h1 | h1
    · exact Nat.lt_succ_of_lt (hb sub h1)
    · simp at h1
      subst h1
      exact Nat.lt_succ_self _
  · intro p hp2
    rcases mem_setFD hp2 with h1 | ⟨h1, h2⟩
    · subst h1
      refine ⟨by simp [hmk], ?_⟩
      intro i hi
      simp at hi
      subst hi
      exact List.mem_append_right _ (by simp [AsyncPollAdd])
    · have hpp := hp p h1 h2
      refine ⟨hpp.1, ?_⟩
      intro i hi
      exact List.mem_append_left _ (hpp.2 i hi)

/- Clearing the fd entry (mask 0, no submission) preserves NotifierInv over
any ring whose other entries already satisfy the per-entry invariant. -/

theorem notifierInv_core_none (m : List (Int × GuestFdInfo)) (r : RingState) (fd : Int)
    (hk : (m.map Prod.fst).Nodup)
    (hn : (r.active.map Submission.idx).Nodup)
    (hb : ∀ sub ∈ r.active, sub.idx < r.nextIdx)
    (hp : ∀ p ∈ m, p.1 ≠ fd → (p.2.userdata.isSome ↔ p.2.mask ≠ 0) ∧
      ∀ i ∈ p.2.userdata.toList, Submission.mk i p.1 p.2.mask ∈ r.active) :
    NotifierInv ⟨setFD m fd ⟨0, none⟩, r⟩ := by
  unfold NotifierInv
  refine ⟨?_, hn, hb, ?_⟩
  · show ((setFD m fd ⟨0, none⟩).map Prod.fst).Nodup
    rw [setFD_keys]
    exact hk
  · intro p hp2
    rcases mem_setFD hp2 with h1 | ⟨h1, h2⟩
    · subst h1
      exact ⟨by simp, by simp⟩
    · exact hp p h1 h2

/- NotifierInv is preserved by each notifier operation that completes
without panicking. -/

theorem notifierInv_AddFD {st st2 : NotifierState} {fd : Int}
    (hI : NotifierInv st) (h : AddFD st fd = some st2) : NotifierInv st2 := by
  obtain ⟨hk, hn, hb, hp⟩ := hI
  unfold AddFD at h
  split at h
  next fi heq => exact absurd h (by simp)
  next heq =>
    injection h with h
    subst h
    unfold NotifierInv
    refine ⟨?_, hn, hb, ?_⟩
    · show ((st.fdMap ++ [(fd, (⟨0, none⟩ : GuestFdInfo))]).map Prod.fst).Nodup
      rw [List.map_append, List.nodup_append]
      refine ⟨hk, by simp, ?_⟩
      intro a ha hmem2
      simp at hmem2
      subst hmem2
      obtain ⟨q, hq, hq1⟩ := List.mem_map.mp ha
      exact lookupFD_eq_none heq q hq hq1
    · intro p hp2
      rcases List.mem_append.mp hp2 with h1 | h1
      · exact hp p h1
      · have h1e : p = (fd, ⟨0, none⟩) := by simpa using h1
        subst h1e
        exact ⟨by simp, by simp⟩

theorem notifierInv_RemoveFD {st st2 : NotifierState} {fd : Int}
    (hI : NotifierInv st) (h : RemoveFD st fd = some st2) : NotifierInv st2 := by
  obtain ⟨hk, hn, hb, hp⟩ := hI
  unfold RemoveFD at h
  split at h
  next heq => exact absurd h (by simp)
  next fi heq =>
    have hmem : (fd, fi) ∈ st.fdMap := lookupFD_mem heq
    have hkeys : ((st.fdMap.filter (fun p => p.1 ≠ fd)).map Prod.fst).Nodup :=
      ((List.filter_sublist _).map Prod.fst).nodup hk
    have hpF : ∀ p ∈ st.fdMap.filter (fun p => p.1 ≠ fd), p ∈ st.fdMap ∧ p.1 ≠ fd := by
      intro p hpf
      have hmf := List.mem_filter.mp hpf
      refine ⟨hmf.1, ?_⟩
      simpa using hmf.2
    split at h
    next idx hu =>
      injection h with h
      subst h
      unfold NotifierInv
      refine ⟨hkeys, ?_, ?_, ?_⟩
      · exact ((List.filter_sublist _).map Submission.idx).nodup hn
      · intro sub hs
        exact hb sub (List.mem_filter.mp hs).1
      · intro p hpf
        obtain ⟨hpm, hpne⟩ := hpF p hpf
        exact part4_after_remove st.fdMap st.ring fd fi idx hn hp hmem hu p hpm hpne
    next hu =>
      injection h with h
      subst h
      unfold NotifierInv
      refine ⟨hkeys, hn, hb, ?_⟩
      intro p hpf
      exact hp p (hpF p hpf).1

theorem notifierInv_Waitfd {st st2 : NotifierState} {fd : Int} {mask : Nat}
    (hI : NotifierInv st) (h : Waitfd st fd mask = some st2) : NotifierInv st2 := by
  obtain ⟨hk, hn, hb, hp⟩ := hI
  unfold Waitfd at h
  split at h
  next heq => exact absurd h (by simp)
  next fi heq =>
    have hmem : (fd, fi) ∈ st.fdMap := lookupFD_mem heq
    have hpO : ∀ p ∈ st.fdMap, p.1 ≠ fd → (p.2.userdata.isSome ↔ p.2.mask ≠ 0) ∧
        ∀ i ∈ p.2.userdata.toList, Submission.mk i p.1 p.2.mask ∈ st.ring.active :=
      fun p hm _ => hp p hm
    by_cases hm : fi.mask = mask
    · rw [if_pos hm] at h
      injection h with h
      subst h
      exact ⟨hk, hn, hb, hp⟩
    · rw [if_neg hm] at h
      by_cases h0 : fi.mask = 0
      · rw [if_neg (not_not_intro h0)] at h
        by_cases hmk : mask = 0
        · exact absurd (h0.trans hmk.symm) hm
        · rw [if_pos hmk] at h
          injection h with h
          subst h
          exact notifierInv_core_add st.fdMap st.ring fd mask hk hn hb hpO hmk
      · rw [if_pos h0] at h
        split at h
        next hu => exact absurd h (by simp)
        next idx hu =>
          have hn2 : ((AsyncPollRemove st.ring idx).active.map Submission.idx).Nodup :=
            ((List.filter_sublist _).map Submission.idx).nodup hn
          have hb2 : ∀ sub ∈ (AsyncPollRemove st.ring idx).active,
              sub.idx < (AsyncPollRemove st.ring idx).nextIdx := by
            intro sub hs
            exact hb sub (List.mem_filter.mp hs).1
          have hp2 := part4_after_remove st.fdMap st.ring fd fi idx hn hp hmem hu
          by_cases hmk : mask = 0
          · rw [if_neg (not_not_intro hmk)] at h
            injection h with h
            subst h
            subst hmk
            exact notifierInv_core_none st.fdMap (AsyncPollRemove st.ring idx) fd hk hn2 hb2 hp2
          · rw [if_pos hmk] at h
            injection h with h
            subst h
            exact notifierInv_core_add st.fdMap (AsyncPollRemove st.ring idx) fd mask hk hn2 hb2
              hp2 hmk

theorem notifierInv_step {st st2 : NotifierState} {op : NotifierOp}
    (hI : NotifierInv st) (h : stepNotifier st op = some st2) : NotifierInv st2 := by
  cases op with
  | addFD fd => exact notifierInv_AddFD hI h
  | waitfd fd mask => exact notifierInv_Waitfd hI h
  | updateFD fd q =>
    have h2 : UpdateFD st fd q = some st2 := h
    unfold UpdateFD at h2
    split at h2
    next heq =>
      injection h2 with h2
      subst h2
      exact hI
    next fi heq => exact notifierInv_Waitfd hI h2
  | removeFD fd => exact notifierInv_RemoveFD hI h

theorem notifierInv_run {ops : List NotifierOp} :
    ∀ {st st2 : NotifierState}, NotifierInv st → runNotifier st ops = some st2 →
      NotifierInv st2 := by
  induction ops with
  | nil =>
    intro st st2 hI h
    unfold runNotifier at h
    injection h with h
    subst h
    exact hI
  | cons op rest ih =>
    intro st st2 hI h
    unfold runNotifier at h
    split at h
    next heq => exact absurd h (by simp)
    next st1 heq => exact ih (notifierInv_step hI heq) h

/- Waitfd with the currently stored mask is a no-op. -/

theorem waitfd_noop {st : NotifierState} {fd : Int} {mask : Nat} {fi : GuestFdInfo}
    (hf : lookupFD st.fdMap fd = some fi) (hm : fi.mask = mask) :
    Waitfd st fd mask = some st := by
  unfold Waitfd
  split
  next heq =>
    rw [hf] at heq
    exact absurd heq (by simp)
  next fi1 heq =>
    rw [hf] at heq
    injection heq with heq
    subst heq
    rw [if_pos hm]

/- AsyncPollAdd is issued by Waitfd exactly when the requested mask differs
from the stored one and is non-zero. -/

theorem waitfd_addCount {st st2 : NotifierState} {fd : Int} {mask : Nat} {fi : GuestFdInfo}
    (hf : lookupFD st.fdMap fd = some fi) (h : Waitfd st fd mask = some st2) :
    st2.ring.addCount = st.ring.addCount + (if mask = fi.mask ∨ mask = 0 then 0 else 1) := by
  unfold Waitfd at h
  split at h
  next heq =>
    rw [hf] at heq
    exact absurd heq (by simp)
  next fi1 heq =>
    rw [hf] at heq
    injection heq with heq
    subst heq
    by_cases hm : fi.mask = mask
    · rw [if_pos hm] at h
      injection h with h
      subst h
      rw [if_pos (Or.inl hm.symm)]
      omega
    · rw [if_neg hm] at h
      have hcond : ¬ (mask = fi.mask ∨ mask = 0) → (if mask = fi.mask ∨ mask = 0 then 0 else 1) = 1 :=
        fun hc => if_neg hc
      by_cases h0 : fi.mask = 0
      · rw [if_neg (not_not_intro h0)] at h
        by_cases hmk : mask = 0
        · exact absurd (h0.trans hmk.symm) hm
        · rw [if_pos hmk] at h
          injection h with h
          subst h
          rw [if_neg (by rintro (hc | hc); exact hm hc.symm; exact hmk hc)]
          simp [AsyncPollAdd]
      · rw [if_pos h0] at h
        split at h
        next hu => exact absurd h (by simp)
        next idx hu =>
          by_cases hmk : mask = 0
          · rw [if_neg (not_not_intro hmk)] at h
            injection h with h
            subst h
            rw [if_pos (Or.inr hmk)]
            simp [AsyncPollRemove]
          · rw [if_pos hmk] at h
            injection h with h
            subst h
            rw [if_neg (by rintro (hc | hc); exact hm hc.symm; exact hmk hc)]
            simp [AsyncPollAdd, AsyncPollRemove]

/- After a successful Waitfd the entry of fd stores the requested mask. -/

theorem waitfd_lookup_after {st st1 : NotifierState} {fd : Int} {mask : Nat}
    (h : Waitfd st fd mask = some st1) :
    ∃ ud, lookupFD st1.fdMap fd = some ⟨mask, ud⟩ := by
  unfold Waitfd at h
  split at h
  next heq => exact absurd h (by simp)
  next fi heq =>
    have hs : (lookupFD st.fdMap fd).isSome := by rw [heq]; rfl
    obtain ⟨fm, fu⟩ := fi
    by_cases hm : fm = mask
    · rw [if_pos hm] at h
      injection h with h
      subst h
      subst hm
      exact ⟨fu, heq⟩
    · rw [if_neg hm] at h
      by_cases h0 : fm = 0
      · rw [if_neg (not_not_intro h0)] at h
        by_cases hmk : mask = 0
        · exact absurd (h0.trans hmk.symm) hm
        · rw [if_pos hmk] at h
          injection h with h
          subst h
          exact ⟨_, lookupFD_setFD_self _ hs⟩
      · rw [if_pos h0] at h
        split at h
        next hu => exact absurd h (by simp)
        next idx hu =>
          by_cases hmk : mask = 0
          · rw [if_neg (not_not_intro hmk)] at h
            injection h with h
            subst h
            exact ⟨_, lookupFD_setFD_self _ hs⟩
          · rw [if_pos hmk] at h
            injection h with h
            subst h
            exact ⟨_, lookupFD_setFD_self _ hs⟩

/- The pair Waitfd(fd, m); Waitfd(fd, m) issues one submission when m is
fresh and non-zero, and none otherwise: the second call always finds the
stored mask equal to m and is a no-op. -/

theorem waitfd_pair_addCount {st st1 st2 : NotifierState} {fd : Int} {mask : Nat}
    {fi : GuestFdInfo} (hf : lookupFD st.fdMap fd = some fi)
    (h1 : Waitfd st fd mask = some st1) (h2 : Waitfd st1 fd mask = some st2) :
    st2.ring.addCount = st.ring.addCount + (if mask = fi.mask ∨ mask = 0 then 0 else 1) := by
  obtain ⟨ud, hl⟩ := waitfd_lookup_after h1
  have hc1 := waitfd_addCount hf h1
  have hc2 := waitfd_addCount hl h2
  rw [if_pos (Or.inl rfl)] at hc2
  omega

/-- Claim C7, counterexample: in the invariant state with fd 3 registered at
mask 0 and an empty ring, Waitfd(3, 0) succeeds and changes nothing, so the
pair Waitfd(3, 0); Waitfd(3, 0) issues zero AsyncPollAdd submissions; the
final addCount does not equal the initial addCount plus one, refuting the
claim that the pair issues exactly one submission. -/
theorem C7_notifier_cex :
    NotifierInv ⟨[(3, ⟨0, none⟩)], ⟨0, [], 0⟩⟩ ∧
    Waitfd ⟨[(3, ⟨0, none⟩)], ⟨0, [], 0⟩⟩ 3 0 = some ⟨[(3, ⟨0, none⟩)], ⟨0, [], 0⟩⟩ ∧
    ((⟨[(3, ⟨0, none⟩)], ⟨0, [], 0⟩⟩ : NotifierState).ring.addCount ≠
      (⟨[(3, ⟨0, none⟩)], ⟨0, [], 0⟩⟩ : NotifierState).ring.addCount + 1) := by
  decide

/-- Claim C7, amended: every sequence of notifier operations that completes
without panicking preserves NotifierInv, so a present fd entry holds an
outstanding submission exactly when its stored mask is non-zero and that
submission carries the stored mask; Waitfd with the stored mask is a no-op;
and the pair Waitfd(fd, m); Waitfd(fd, m) issues exactly one AsyncPollAdd
submission when m differs from the stored mask and is non-zero, and zero
submissions otherwise (the second call always finds the stored mask equal
to m). -/
theorem C7_notifier_amended :
    (∀ (st : NotifierState) (ops : List NotifierOp) (st2 : NotifierState),
        NotifierInv st → runNotifier st ops = some st2 → NotifierInv st2) ∧
    (∀ (st : NotifierState) (fd : Int) (fi : GuestFdInfo) (m : Nat),
        lookupFD st.fdMap fd = some fi →
        (fi.mask = m → Waitfd st fd m = some st) ∧
        ∀ st1 st2, Waitfd st fd m = some st1 → Waitfd st1 fd m = some st2 →
          st2.ring.addCount = st.ring.addCount + (if m = fi.mask ∨ m = 0 then 0 else 1)) :=
  ⟨fun _ _ _ hI h => notifierInv_run hI h,
   fun _ _ _ _ hf =>
     ⟨fun hm => waitfd_noop hf hm,
      fun _ _ h1 h2 => waitfd_pair_addCount hf h1 h2⟩⟩

/-- Claim C7, witness: a concrete four-operation run (add fd 4, wait fd 3
on mask 5, update fd 4 to mask 2, remove fd 3) preserves the invariant, and
a concrete Waitfd(3, 5); Waitfd(3, 5) pair from a fresh entry issues exactly
one submission. -/
theorem C7_notifier_amended_witness :
    NotifierInv ⟨[(4, ⟨2, some 1⟩)], ⟨2, [⟨1, 4, 2⟩], 2⟩⟩ ∧
    (⟨[(3, ⟨5, some 0⟩)], ⟨1, [⟨0, 3, 5⟩], 1⟩⟩ : NotifierState).ring.addCount =
      (⟨[(3, ⟨0, none⟩)], ⟨0, [], 0⟩⟩ : NotifierState).ring.addCount +
        (if 5 = (⟨0, none⟩ : GuestFdInfo).mask ∨ 5 = 0 then 0 else 1) :=
  ⟨C7_notifier_amended.1 ⟨[(3, ⟨0, none⟩)], ⟨0, [], 0⟩⟩
      [NotifierOp.addFD 4, NotifierOp.waitfd 3 5, NotifierOp.updateFD 4 2, NotifierOp.removeFD 3]
      ⟨[(4, ⟨2, some 1⟩)], ⟨2, [⟨1, 4, 2⟩], 2⟩⟩ (by decide) (by decide),
   (C7_notifier_amended.2 ⟨[(3, ⟨0, none⟩)], ⟨0, [], 0⟩⟩ 3 ⟨0, none⟩ 5 (by decide)).2
      ⟨[(3, ⟨5, some 0⟩)], ⟨1, [⟨0, 3, 5⟩], 1⟩⟩ ⟨[(3, ⟨5, some 0⟩)], ⟨1, [⟨0, 3, 5⟩], 1⟩⟩
      (by decide) (by decide)⟩
